import Mathlib

/-!
Verification of the Hybrid Retrieval & Clinical Linkage Engine of the
auto-icd repository.  The definitions below are a shallow embedding of
`apps/api/src/rag-service.js` (hybrid diagnosis search) and
`apps/api/src/database.js` (ICD→CPT linkage with the clinical rule
validator).  Scores are modelled as exact rationals; rows returned by the
storage collaborator (PostgreSQL) are modelled as explicit lists carried in
a database-state record; JavaScript exceptions are modelled with `Except`.
-/

set_option maxHeartbeats 2000000

namespace AutoIcd

/-- ASCII case folding, as JavaScript `toLowerCase` behaves on the ASCII
    strings used by the engine. -/
def lowerStr (s : String) : String := String.mk (s.data.map Char.toLower)

/-- `firstMatches needle hay` is true when `needle` is an initial segment
    of `hay` (character-wise equality). -/
def firstMatches : List Char → List Char → Bool
  | [], _ => true
  | _ :: _, [] => false
  | a :: as, b :: bs => a == b && firstMatches as bs

/-- `subList needle hay`: JavaScript `String.prototype.includes`, on
    character lists. -/
def subList (needle : List Char) : List Char → Bool
  | [] => needle.isEmpty
  | c :: t => firstMatches needle (c :: t) || subList needle t

/-- JavaScript `hay.includes(needle)`. -/
def includesStr (hay needle : String) : Bool := subList needle.data hay.data

/-- Case-insensitive containment: `hay.match(/needle/i)` for a literal
    needle (the needle is supplied in lower case). -/
def containsCI (hay needle : String) : Bool := includesStr (lowerStr hay) needle

/-- `s.match(/a|b|.../i)` for an alternation of literal branches, each
    supplied in lower case. -/
def matchesAny (s : String) (needles : List String) : Bool :=
  needles.any (fun n => containsCI s n)

/-- JavaScript `s.startsWith(pat)` (case sensitive), used for anchored
    regexes such as `/^S02/`. -/
def beginsWith (s pat : String) : Bool := firstMatches pat.data s.data

/-- JavaScript `/pat$/.test(s)` for a literal `pat` (case sensitive). -/
def finishesWith (s pat : String) : Bool := firstMatches pat.data.reverse s.data.reverse

/-- Character range test used to model regex character classes. -/
def charIn (c lo hi : Char) : Bool :=
  decide (lo.toNat ≤ c.toNat) && decide (c.toNat ≤ hi.toNat)

/-- Accumulate the numeric value of a leading run of decimal digits. -/
def digitPart : List Char → ℕ → ℕ
  | [], acc => acc
  | c :: t, acc => if c.isDigit then digitPart t (acc * 10 + (c.toNat - 48)) else acc

/-- JavaScript `parseInt` restricted to base 10: `none` models `NaN`
    (no leading digit). -/
def parseIntOpt (s : String) : Option ℕ :=
  match s.data with
  | c :: _ => if c.isDigit then some (digitPart s.data 0) else none
  | [] => none

/-- `x >= n` under JavaScript numeric comparison; comparisons with `NaN`
    are false. -/
def numGe (x : Option ℕ) (n : ℕ) : Bool :=
  match x with
  | some v => decide (n ≤ v)
  | none => false

/-- `x <= n` under JavaScript numeric comparison; comparisons with `NaN`
    are false. -/
def numLe (x : Option ℕ) (n : ℕ) : Bool :=
  match x with
  | some v => decide (v ≤ n)
  | none => false

/-- `lo <= x && x <= hi` with `NaN`-is-false semantics. -/
def numBetween (x : Option ℕ) (lo hi : ℕ) : Bool := numGe x lo && numLe x hi

/-- Regex `/^2T\d{3}$/` where `T` is the second digit: the five-character
    CPT code bands `23xxx` … `28xxx` tested in `extractAnatomicalSites`. -/
def cptBand (code : String) (tens : Char) : Bool :=
  match code.data with
  | '2' :: x :: a :: b :: c :: [] => x == tens && a.isDigit && b.isDigit && c.isDigit
  | _ => false

/-- Keyword-to-tag lookup table `anatomyMap` of `extractAnatomicalSites`
    in `database.js`, in source order. -/
def anatomyMap : List (String × List String) :=
  [ ("skull", ["skull", "cranium", "head bone"]),
    ("mandible", ["mandible", "jaw", "lower jaw", "alveolus", "alveolar"]),
    ("maxilla", ["maxilla", "upper jaw"]),
    ("face", ["face", "facial"]),
    ("neck", ["neck", "cervical"]),
    ("clavicle", ["clavicle", "clavicular", "collarbone"]),
    ("scapula", ["scapula", "scapular", "shoulder blade"]),
    ("humerus", ["humerus", "humeral", "upper arm"]),
    ("elbow", ["elbow", "olecranon"]),
    ("radius", ["radius", "radial"]),
    ("ulna", ["ulna", "ulnar"]),
    ("forearm", ["forearm"]),
    ("wrist", ["wrist", "carpal"]),
    ("hand", ["hand", "metacarp", "phalang", "finger", "thumb"]),
    ("hip", ["hip", "femoral head", "acetabulum"]),
    ("femur", ["femur", "thigh", "femoral shaft"]),
    ("knee", ["knee", "patella", "tibial plateau"]),
    ("tibia", ["tibia", "tibial"]),
    ("fibula", ["fibula", "fibular"]),
    ("ankle", ["ankle", "malleolus"]),
    ("foot", ["foot", "tarsal", "metatarsal", "toe"]),
    ("spine", ["spine", "vertebr", "spinal"]),
    ("cervical", ["cervical spine", "c-spine", "neck"]),
    ("thoracic", ["thoracic spine", "t-spine"]),
    ("lumbar", ["lumbar spine", "l-spine", "lower back"]),
    ("chest", ["chest", "thorax", "rib", "sternum"]),
    ("abdomen", ["abdomen", "abdominal"]),
    ("pelvis", ["pelvis", "pelvic"]),
    ("heart", ["heart", "cardiac", "coronary"]),
    ("lung", ["lung", "pulmonary"]),
    ("liver", ["liver", "hepatic"]),
    ("kidney", ["kidney", "renal"]),
    ("brain", ["brain", "cerebral", "intracranial"]) ]

/-- First-occurrence deduplication: JavaScript `[...new Set(sites)]`. -/
def dedupAux : List String → List String → List String
  | [], _ => []
  | x :: t, seen => if seen.contains x then dedupAux t seen else x :: dedupAux t (x :: seen)

/-- First-occurrence deduplication: JavaScript `[...new Set(sites)]`. -/
def dedupFirst (l : List String) : List String := dedupAux l []

/-- `extractAnatomicalSites(text, code)` of `database.js`: keyword scan over
    the lower-cased text and code, then diagnosis-code prefix rules
    (`S02`, `S52`, `S72`, `S82`), then CPT numeric code-band rules
    (`23xxx` … `28xxx`), deduplicated preserving first occurrence. -/
def extractAnatomicalSites (text code : String) : List String :=
  let lowerText := lowerStr text
  let lowerCode := lowerStr code
  let sites := anatomyMap.foldl (fun acc p =>
    if p.2.any (fun kw => includesStr lowerText kw || includesStr lowerCode kw)
    then acc ++ [p.1] else acc) []
  let sites := if beginsWith code "S02" && !sites.contains "mandible" &&
      !sites.contains "maxilla" && !sites.contains "skull"
    then sites ++ ["face"] else sites
  let sites := if beginsWith code "S52" && !sites.contains "radius" &&
      !sites.contains "ulna"
    then sites ++ ["forearm"] else sites
  let sites := if beginsWith code "S72" && !sites.contains "femur"
    then sites ++ ["femur"] else sites
  let sites := if beginsWith code "S82" && !sites.contains "tibia" &&
      !sites.contains "fibula"
    then sites ++ ["tibia"] else sites
  let codeNum := parseIntOpt code
  let sites := if cptBand code '3' then
      (if numBetween codeNum 23500 23552 then
        (if !sites.contains "clavicle" then sites ++ ["clavicle"] else sites)
      else if numBetween codeNum 23570 23680 then
        (if !sites.contains "scapula" then sites ++ ["scapula"] else sites)
      else if numBetween codeNum 23600 23630 then
        (if !sites.contains "humerus" then sites ++ ["humerus"] else sites)
      else sites)
    else sites
  let sites := if cptBand code '4' && !sites.contains "humerus" &&
      !sites.contains "elbow"
    then sites ++ ["humerus"] else sites
  let sites := if cptBand code '5' && !sites.contains "radius" &&
      !sites.contains "ulna" && !sites.contains "wrist"
    then sites ++ ["radius"] else sites
  let sites := if cptBand code '6' && !sites.contains "hand"
    then sites ++ ["hand"] else sites
  let sites := if cptBand code '7' then
      (if numBetween codeNum 27000 27036 then sites ++ ["pelvis"]
      else if numBetween codeNum 27040 27299 then sites ++ ["hip"]
      else if numBetween codeNum 27300 27599 then sites ++ ["femur"]
      else if numBetween codeNum 27600 27899 then sites ++ ["knee"]
      else sites)
    else sites
  let sites := if cptBand code '8' && !sites.contains "foot" &&
      !sites.contains "ankle"
    then sites ++ ["foot"] else sites
  dedupFirst sites

/-- The curated `relatedRegions` table of `checkAnatomicalMatch` in
    `database.js`; absent keys yield `[]` (the `|| []` default). -/
def relatedRegions (site : String) : List String :=
  if site == "mandible" then ["face", "maxilla"]
  else if site == "maxilla" then ["face", "mandible"]
  else if site == "clavicle" then []
  else if site == "scapula" then []
  else if site == "humerus" then []
  else if site == "radius" then ["forearm"]
  else if site == "ulna" then ["forearm"]
  else if site == "forearm" then ["radius", "ulna"]
  else if site == "tibia" then ["fibula"]
  else if site == "fibula" then ["tibia"]
  else if site == "wrist" then []
  else if site == "hand" then []
  else if site == "elbow" then []
  else if site == "knee" then []
  else if site == "ankle" then []
  else if site == "femur" then []
  else if site == "hip" then []
  else if site == "foot" then []
  else []

/-- `checkAnatomicalMatch(icdSites, cptSites)` of `database.js`: true when
    either side is empty (unknown), when the two tag lists overlap, or when
    some ICD tag lists a CPT tag among its curated related regions. -/
def checkAnatomicalMatch (icdSites cptSites : List String) : Bool :=
  if icdSites.isEmpty || cptSites.isEmpty then true
  else if icdSites.any (fun s => cptSites.contains s) then true
  else if icdSites.any (fun s => (relatedRegions s).any (fun r => cptSites.contains r)) then true
  else false

/-- Regex `/^I[0-5]\d/` (cardiovascular diagnosis codes). -/
def isCardioIcd (s : String) : Bool :=
  match s.data with
  | 'I' :: a :: b :: _ => charIn a '0' '5' && b.isDigit
  | _ => false

/-- Regex `/^O\d/` (obstetric diagnosis codes). -/
def isObstetricIcd (s : String) : Bool :=
  match s.data with
  | 'O' :: a :: _ => a.isDigit
  | _ => false

/-- Regex `/^[GS][0-4]\d/` (neurological / head-injury codes). -/
def isNeuroIcd (s : String) : Bool :=
  match s.data with
  | g :: a :: b :: _ => (g == 'G' || g == 'S') && charIn a '0' '4' && b.isDigit
  | _ => false

/-- Regex `/^Q\d/` (congenital codes). -/
def isCongenitalIcd (s : String) : Bool :=
  match s.data with
  | 'Q' :: a :: _ => a.isDigit
  | _ => false

/-- Regex `/^[KR]\d/` (digestive / abdominal codes). -/
def isAbdominalIcd (s : String) : Bool :=
  match s.data with
  | k :: a :: _ => (k == 'K' || k == 'R') && a.isDigit
  | _ => false

/-- Regex `/^S[4-6]\d/` (upper-extremity injury codes). -/
def isUpperInjuryIcd (s : String) : Bool :=
  match s.data with
  | 'S' :: a :: b :: _ => charIn a '4' '6' && b.isDigit
  | _ => false

/-- Regex `/^S[7-9]\d/` (lower-extremity injury codes). -/
def isLowerInjuryIcd (s : String) : Bool :=
  match s.data with
  | 'S' :: a :: b :: _ => charIn a '7' '9' && b.isDigit
  | _ => false

/-- Regex `/^2[3-6]\d{3}/` (upper-extremity CPT code heuristic). -/
def isUpperCptCode (s : String) : Bool :=
  match s.data with
  | '2' :: x :: a :: b :: c :: _ => charIn x '3' '6' && a.isDigit && b.isDigit && c.isDigit
  | _ => false

/-- Regex `/^2[7-9]\d{3}/` (lower-extremity CPT code heuristic). -/
def isLowerCptCode (s : String) : Bool :=
  match s.data with
  | '2' :: x :: a :: b :: c :: _ => charIn x '7' '9' && a.isDigit && b.isDigit && c.isDigit
  | _ => false

/-- Regex `/^M\d/` (musculoskeletal codes). -/
def isMskIcd (s : String) : Bool :=
  match s.data with
  | 'M' :: a :: _ => a.isDigit
  | _ => false

/-- Regex `/^S\d/` (injury codes). -/
def isInjuryIcd (s : String) : Bool :=
  match s.data with
  | 'S' :: a :: _ => a.isDigit
  | _ => false

/-- Regex `/^E1[01]/` (diabetes codes). -/
def isDiabetesIcd (s : String) : Bool :=
  match s.data with
  | 'E' :: '1' :: a :: _ => a == '0' || a == '1'
  | _ => false

/-- Regex `/^I1[0-5]/` (hypertensive codes). -/
def isHypertensionIcd (s : String) : Bool :=
  match s.data with
  | 'I' :: '1' :: a :: _ => charIn a '0' '5'
  | _ => false

/-- Regex `/^E0[0-7]/` (thyroid-disorder codes). -/
def isThyroidIcd (s : String) : Bool :=
  match s.data with
  | 'E' :: '0' :: a :: _ => charIn a '0' '7'
  | _ => false

/-- Regex `/^99[12]\d{2}/` (evaluation-and-management CPT codes). -/
def isEMVisitCpt (s : String) : Bool :=
  match s.data with
  | '9' :: '9' :: x :: a :: b :: _ => charIn x '1' '2' && a.isDigit && b.isDigit
  | _ => false

/-- An `icd_codes` row as consumed by the linkage path of `database.js`
    (`getCPTForICD` selects code, title, chapter, block, title_embedding;
    the embedding itself only matters through its presence). -/
structure IcdInfo where
  code : String
  title : String
  chapter : String
  block : String := ""
  hasEmbedding : Bool := false
deriving DecidableEq, Repr

/-- A candidate procedure row entering `validateMedicalLinking`:
    a `cpt_codes` row, with `similarity` present on the vector path
    (set to 0.6 on the keyword path, absent otherwise). -/
structure CptCandidate where
  code : String
  display : String
  short_description : String
  chapter : String
  subchapter : String := ""
  similarity : Option ℚ := none
deriving DecidableEq, Repr

/-- Initialization `let validationScore = cpt.similarity || 0.5` — the
    JavaScript `||` also maps a present value of `0` to the baseline. -/
def initialScore (cpt : CptCandidate) : ℚ :=
  match cpt.similarity with
  | some s => if s == 0 then 0.5 else s
  | none => 0.5

/-- Rule 0: block cardiovascular procedures for non-cardiac conditions. -/
def rule0Delta (icd : IcdInfo) (cpt : CptCandidate) : ℚ :=
  if matchesAny cpt.short_description
      ["cardiovascular", "cardiac", "heart", "ekg", "ecg", "stress test"] &&
     !matchesAny icd.title ["heart", "cardiac", "cardiovascular", "myocardial"] &&
     !isCardioIcd icd.code
  then -0.8 else 0

/-- Rule 0b: block obstetric procedures for non-pregnancy conditions. -/
def rule0bDelta (icd : IcdInfo) (cpt : CptCandidate) : ℚ :=
  if matchesAny cpt.short_description
      ["fetal", "obstetric", "pregnancy", "prenatal", "biophys"] &&
     !matchesAny icd.title ["pregnancy", "fetal", "obstetric", "maternal"] &&
     !isObstetricIcd icd.code
  then -0.8 else 0

/-- Rule 0c: block neurological procedures for non-neuro conditions. -/
def rule0cDelta (icd : IcdInfo) (cpt : CptCandidate) : ℚ :=
  if matchesAny cpt.short_description ["brain", "neurolog", "cranial", "cerebral"] &&
     !matchesAny icd.title ["brain", "neurolog", "cranial", "cerebral", "head"] &&
     !isNeuroIcd icd.code
  then -0.8 else 0

/-- Rule 0d: block congenital repair procedures for non-congenital conditions. -/
def rule0dDelta (icd : IcdInfo) (cpt : CptCandidate) : ℚ :=
  if matchesAny cpt.short_description ["cleft", "congenital", "malformation"] &&
     !matchesAny icd.title ["congenital", "cleft", "malformation"] &&
     !isCongenitalIcd icd.code
  then -0.9 else 0

/-- Rule 0e: block abdominal organ surgery for non-abdominal conditions. -/
def rule0eDelta (icd : IcdInfo) (cpt : CptCandidate) : ℚ :=
  if matchesAny cpt.short_description
      ["liver", "hepatic", "spleen", "pancrea", "gallbladder", "colon", "intestin"] &&
     !matchesAny icd.title
      ["liver", "hepatic", "spleen", "pancrea", "gallbladder", "colon", "intestin", "abdom"] &&
     !isAbdominalIcd icd.code
  then -0.9 else 0

/-- Keyword list of the upper-extremity heuristic in Rule 0f. -/
def upperExtremityWords : List String :=
  ["arm", "shoulder", "elbow", "wrist", "hand", "finger", "radius", "ulna", "humerus"]

/-- Keyword list of the lower-extremity heuristic in Rule 0f. -/
def lowerExtremityWords : List String :=
  ["leg", "hip", "knee", "ankle", "foot", "toe", "femur", "tibia", "fibula"]

/-- `icdIsUpperExtremity` of Rule 0f. -/
def icdIsUpperExtremity (icd : IcdInfo) : Bool :=
  isUpperInjuryIcd icd.code || matchesAny icd.title upperExtremityWords

/-- `icdIsLowerExtremity` of Rule 0f. -/
def icdIsLowerExtremity (icd : IcdInfo) : Bool :=
  isLowerInjuryIcd icd.code || matchesAny icd.title lowerExtremityWords

/-- `cptIsUpperExtremity` of Rule 0f. -/
def cptIsUpperExtremity (cpt : CptCandidate) : Bool :=
  isUpperCptCode cpt.code || matchesAny cpt.short_description upperExtremityWords

/-- `cptIsLowerExtremity` of Rule 0f. -/
def cptIsLowerExtremity (cpt : CptCandidate) : Bool :=
  isLowerCptCode cpt.code || matchesAny cpt.short_description lowerExtremityWords

/-- Rule 0f: block upper-extremity procedures for lower-extremity
    conditions and vice versa (the two sub-rules are independent). -/
def rule0fDelta (icd : IcdInfo) (cpt : CptCandidate) : ℚ :=
  (if icdIsUpperExtremity icd && cptIsLowerExtremity cpt then -0.8 else 0) +
  (if icdIsLowerExtremity icd && cptIsUpperExtremity cpt then -0.8 else 0)

/-- `icd.title?.match(/fracture/i)` guard of Rules 1 and 8. -/
def isFractureDiagnosis (icd : IcdInfo) : Bool := containsCI icd.title "fracture"

/-- Anatomical tags of the diagnosis side (Rule 1). -/
def icdSitesOf (icd : IcdInfo) : List String := extractAnatomicalSites icd.title icd.code

/-- Anatomical tags of the procedure side (Rule 1): the scanned text is
    `cpt.short_description + ' ' + cpt.display`. -/
def cptSitesOf (cpt : CptCandidate) : List String :=
  extractAnatomicalSites (cpt.short_description ++ " " ++ cpt.display) cpt.code

/-- The anatomical-agreement penalty of Rule 1: −0.7 exactly when the
    diagnosis is a fracture, `checkAnatomicalMatch` fails and the
    procedure side produced at least one tag. -/
def fractureAnatomyPenalty (icd : IcdInfo) (cpt : CptCandidate) : ℚ :=
  if isFractureDiagnosis icd &&
     !checkAnatomicalMatch (icdSitesOf icd) (cptSitesOf cpt) &&
     !(cptSitesOf cpt).isEmpty
  then -0.7 else 0

/-- The boost half of Rule 1, applied when the anatomical sites agree:
    surgical fracture repair, matched-site imaging, immobilization. -/
def fractureMatchBoost (icd : IcdInfo) (cpt : CptCandidate) : ℚ :=
  if isFractureDiagnosis icd &&
     checkAnatomicalMatch (icdSitesOf icd) (cptSitesOf cpt) then
    (if includesStr cpt.chapter "Surgery" &&
        matchesAny cpt.short_description
          ["fracture", "repair", "fix", "osteotomy", "orif", "reduction"]
     then 0.4 else 0) +
    (if includesStr cpt.chapter "Radiology" &&
        matchesAny cpt.short_description
          ["xray", "x-ray", "radiolog", "ct", "mri", "scan"]
     then 0.3 else 0) +
    (if matchesAny cpt.short_description ["cast", "splint", "immobil"]
     then 0.25 else 0)
  else 0

/-- Rule 2: musculoskeletal procedures for M-codes. -/
def rule2Delta (icd : IcdInfo) (cpt : CptCandidate) : ℚ :=
  if isMskIcd icd.code &&
     (includesStr cpt.chapter "Surgery" || includesStr cpt.chapter "Medicine") &&
     matchesAny cpt.short_description
       ["bone", "joint", "muscle", "tendon", "ligament", "orthopedic"]
  then 0.25 else 0

/-- Rule 3: diagnostic procedures for infectious diseases. -/
def rule3Delta (icd : IcdInfo) (cpt : CptCandidate) : ℚ :=
  if includesStr icd.chapter "Infectious" &&
     (includesStr cpt.chapter "Pathology" || includesStr cpt.chapter "Category II" ||
      matchesAny cpt.short_description ["culture", "test", "specimen", "pathogen"])
  then 0.2 else 0

/-- Rule 4: injury-specific procedures for S-codes (surgical repair and
    trauma imaging sub-boosts are independent). -/
def rule4Delta (icd : IcdInfo) (cpt : CptCandidate) : ℚ :=
  if isInjuryIcd icd.code then
    (if includesStr cpt.chapter "Surgery" &&
        matchesAny cpt.short_description ["repair", "treat", "closure", "debride"]
     then 0.25 else 0) +
    (if includesStr cpt.chapter "Radiology" then 0.2 else 0)
  else 0

/-- Rule 5: monitoring for chronic conditions (diabetes, hypertension). -/
def rule5Delta (icd : IcdInfo) (cpt : CptCandidate) : ℚ :=
  if (isDiabetesIcd icd.code || isHypertensionIcd icd.code) &&
     matchesAny cpt.short_description ["blood", "glucose", "pressure", "monitor", "screen"]
  then 0.2 else 0

/-- Rule 5b: thyroid function tests for thyroid disorders. -/
def rule5bDelta (icd : IcdInfo) (cpt : CptCandidate) : ℚ :=
  if isThyroidIcd icd.code &&
     matchesAny cpt.short_description ["thyroid", "tsh", "t3", "t4", "thyroxine"]
  then 0.45 else 0

/-- Rule 5c: laboratory/pathology workup for endocrine, infectious and
    blood conditions. -/
def rule5cDelta (icd : IcdInfo) (cpt : CptCandidate) : ℚ :=
  if (includesStr cpt.chapter "Pathology" || includesStr cpt.chapter "Laboratory" ||
      includesStr cpt.chapter "Category II") &&
     (includesStr icd.chapter "Endocrine" || includesStr icd.chapter "Infectious" ||
      includesStr icd.chapter "Blood")
  then 0.30 else 0

/-- Rule 5d: general boost for laboratory tests. -/
def rule5dDelta (cpt : CptCandidate) : ℚ :=
  if includesStr cpt.chapter "Pathology" || includesStr cpt.chapter "Laboratory"
  then 0.10 else 0

/-- Rule 6: penalize surgery for mental-health conditions. -/
def rule6Delta (icd : IcdInfo) (cpt : CptCandidate) : ℚ :=
  if includesStr icd.chapter "Mental" && includesStr cpt.chapter "Surgery" &&
     !matchesAny cpt.short_description ["psychiatric", "mental"]
  then -0.5 else 0

/-- Rule 7: sequela codes (trailing `S`) — follow-up evaluation,
    rehabilitation and follow-up imaging (independent sub-boosts). -/
def rule7Delta (icd : IcdInfo) (cpt : CptCandidate) : ℚ :=
  if finishesWith icd.code "S" then
    (if isEMVisitCpt cpt.code ||
        matchesAny cpt.short_description
          ["office visit", "outpatient visit", "evaluation", "exam"]
     then 0.2 else 0) +
    (if matchesAny cpt.short_description
          ["rehab", "therapy", "physical therapy", "occupational"]
     then 0.2 else 0) +
    (if includesStr cpt.chapter "Radiology" then 0.15 else 0)
  else 0

/-- Rule 8: NICE pathway — imaging first for fractures at a matching site. -/
def rule8Delta (icd : IcdInfo) (cpt : CptCandidate) : ℚ :=
  if isFractureDiagnosis icd && includesStr cpt.chapter "Radiology" &&
     checkAnatomicalMatch (icdSitesOf icd) (cptSitesOf cpt)
  then 0.3 else 0

/-- The raw validation score of one candidate: initial score plus the sum
    of all rule deltas of `validateMedicalLinking` in `database.js`
    (sequential in-place additions commute into a sum). -/
def validationScoreRaw (icd : IcdInfo) (cpt : CptCandidate) : ℚ :=
  initialScore cpt +
  rule0Delta icd cpt + rule0bDelta icd cpt + rule0cDelta icd cpt +
  rule0dDelta icd cpt + rule0eDelta icd cpt + rule0fDelta icd cpt +
  fractureAnatomyPenalty icd cpt + fractureMatchBoost icd cpt +
  rule2Delta icd cpt + rule3Delta icd cpt + rule4Delta icd cpt +
  rule5Delta icd cpt + rule5bDelta icd cpt + rule5cDelta icd cpt +
  rule5dDelta cpt + rule6Delta icd cpt + rule7Delta icd cpt +
  rule8Delta icd cpt

/-- `validationScore = Math.min(validationScore, 0.95)` — the confidence
    ceiling applied by the validator. -/
def validationScore (icd : IcdInfo) (cpt : CptCandidate) : ℚ :=
  min (validationScoreRaw icd cpt) 0.95

/-- `validationScore >= 0.65 ? 'approved' : 'rejected'`. -/
def validationStatus (icd : IcdInfo) (cpt : CptCandidate) : String :=
  if 0.65 ≤ validationScore icd cpt then "approved" else "rejected"

/-- `determineRelationshipType(icd, cpt)` of `database.js` — first match
    wins: diagnostic, therapeutic, monitoring, imaging, related. -/
def determineRelationshipType (cpt : CptCandidate) : String :=
  if includesStr cpt.chapter "Pathology" ||
     matchesAny cpt.short_description ["test", "culture", "specimen", "biopsy"]
  then "diagnostic"
  else if includesStr cpt.chapter "Surgery" ||
     matchesAny cpt.short_description ["repair", "excision", "removal", "replacement"]
  then "therapeutic"
  else if matchesAny cpt.short_description
     ["blood", "glucose", "pressure", "monitor", "screening"]
  then "monitoring"
  else if includesStr cpt.chapter "Radiology" ||
     matchesAny cpt.short_description ["xray", "ct", "mri", "ultrasound", "scan"]
  then "imaging"
  else "related"

/-- A scored link row as returned to the caller of `getCPTForICD`:
    produced either by the validator (`validation_status` present) or by
    the pre-computed-links path (`validation_status` absent, stored
    `confidence_score` and `relationship_type` passed through). -/
structure ValidatedLink where
  code : String
  display : String
  short_description : String
  chapter : String
  similarity : Option ℚ := none
  relationship_type : String
  confidence_score : ℚ
  validation_status : Option String := none
deriving DecidableEq, Repr

/-- The validator's per-candidate output record. -/
def mkValidated (icd : IcdInfo) (cpt : CptCandidate) : ValidatedLink :=
  { code := cpt.code
    display := cpt.display
    short_description := cpt.short_description
    chapter := cpt.chapter
    similarity := cpt.similarity
    relationship_type := determineRelationshipType cpt
    confidence_score := validationScore icd cpt
    validation_status := some (validationStatus icd cpt) }

/-- Descending order on `confidence_score`, the comparator
    `(a, b) => b.confidence_score - a.confidence_score`. -/
def byConfidenceDesc (a b : ValidatedLink) : Prop :=
  b.confidence_score ≤ a.confidence_score

instance : DecidableRel byConfidenceDesc := fun a b =>
  inferInstanceAs (Decidable (b.confidence_score ≤ a.confidence_score))

instance : IsTotal ValidatedLink byConfidenceDesc :=
  ⟨fun a b => le_total b.confidence_score a.confidence_score⟩

instance : IsTrans ValidatedLink byConfidenceDesc :=
  ⟨fun _ _ _ h1 h2 => le_trans h2 h1⟩

/-- `validateMedicalLinking(icd, cptSuggestions)` of `database.js`: score
    every candidate, keep the approved ones, sort by validation score
    descending (JavaScript sort is stable; a stable sort is modelled by
    insertion sort). -/
def validateMedicalLinking (icd : IcdInfo) (cpts : List CptCandidate) : List ValidatedLink :=
  let validated := cpts.map (mkValidated icd)
  List.insertionSort byConfidenceDesc
    (validated.filter (fun v => v.validation_status == some "approved"))

/-- An `icd_cpt_links` row (pre-computed link storage). -/
structure LinkRow where
  icd_code : String
  cpt_code : String
  relationship_type : String
  confidence_score : ℚ
deriving DecidableEq, Repr

/-- A `cpt_codes` table row. -/
structure CptTableRow where
  code : String
  display : String
  short_description : String
  chapter : String
  subchapter : String := ""
  active : Bool := true
deriving DecidableEq, Repr

/-- The storage state visible to `getCPTForICD`.  The two embedding-driven
    SQL result sets (`vectorRows`: nearest-neighbour procedures for the
    diagnosis embedding, above the adaptive threshold, at most
    `limit * 3` rows; `keywordRows`: the de-duplicated union of the
    per-keyword ILIKE searches) are carried as data, since the engine only
    consumes them through the narrow query interface. -/
structure LinkageDb where
  links : List LinkRow
  cptCodes : List CptTableRow
  icdCodes : List IcdInfo
  vectorRows : List CptCandidate
  keywordRows : List CptTableRow
  storageFailing : Bool := false

/-- The pre-computed-links query of `getCPTForICD`: join `icd_cpt_links`
    with active `cpt_codes`, order by stored `confidence_score`
    descending, limit.  The stored confidence and relationship type are
    selected unchanged; no `validation_status` column exists. -/
def precomputedLinks (db : LinkageDb) (icdCode : String) (limit : ℕ) : List ValidatedLink :=
  let joined := db.links.filterMap (fun l =>
    if l.icd_code == icdCode then
      match db.cptCodes.find? (fun c => c.code == l.cpt_code && c.active) with
      | some c => some
          { code := c.code
            display := c.display
            short_description := c.short_description
            chapter := c.chapter
            relationship_type := l.relationship_type
            confidence_score := l.confidence_score }
      | none => none
    else none)
  (List.insertionSort byConfidenceDesc joined).take limit

/-- The keyword-path candidate construction of `getCPTForICD`: each
    traditional match is given `similarity: 0.6` (base similarity for
    traditional search) before validation; the pre-validation
    `relationship_type`/`confidence_score`/`clinical_context` fields it
    also sets are overwritten by the validator and not carried here. -/
def mkKeywordCandidate (c : CptTableRow) : CptCandidate :=
  { code := c.code
    display := c.display
    short_description := c.short_description
    chapter := c.chapter
    subchapter := c.subchapter
    similarity := some 0.6 }

/-- `getCPTForICD(icdCode, limit)` of `database.js` (enhanced version):
    pre-computed links first; otherwise vector search on the diagnosis
    embedding followed by `validateMedicalLinking`; otherwise the
    keyword path followed by `validateMedicalLinking`.  The enclosing
    `try/catch` turns any storage failure into an empty success. -/
def getCPTForICD (db : LinkageDb) (icdCode : String) (limit : ℕ) :
    Except Unit (List ValidatedLink) :=
  let core : Except Unit (List ValidatedLink) :=
    if db.storageFailing then .error () else
    let links := precomputedLinks db icdCode limit
    if !links.isEmpty then .ok links
    else match db.icdCodes.find? (fun r => r.code == icdCode) with
      | none => .ok []
      | some icd =>
        if icd.hasEmbedding && !db.vectorRows.isEmpty then
          .ok ((validateMedicalLinking icd db.vectorRows).take limit)
        else
          .ok ((validateMedicalLinking icd (db.keywordRows.map mkKeywordCandidate)).take limit)
  match core with
  | .ok r => .ok r
  | .error _ => .ok []

/-- A row returned by `traditionalTextSearch` in `rag-service.js` (no
    score and no search-type fields on these raw rows). -/
structure SearchRow where
  code : String
  title : String := ""
deriving DecidableEq, Repr

/-- A row returned by `vectorSearch` in `rag-service.js`, with its cosine
    similarity. -/
structure VectorRow where
  code : String
  title : String := ""
  similarity : ℚ
deriving DecidableEq, Repr

/-- An entry of the `combinedResults` map in `hybridSearch`. -/
structure MergedRow where
  code : String
  title : String := ""
  search_type : String
  combined_score : ℚ
deriving DecidableEq, Repr

/-- `combinedResults.set(code, v)`: JavaScript `Map.set` on an insertion-
    ordered association list — update in place when the key exists,
    append otherwise. -/
def mapSet (m : List MergedRow) (v : MergedRow) : List MergedRow :=
  if m.any (fun x => x.code == v.code) then
    m.map (fun x => if x.code == v.code then v else x)
  else m ++ [v]

/-- `combinedResults.get(code)`. -/
def mapGet (m : List MergedRow) (k : String) : Option MergedRow :=
  m.find? (fun x => x.code == k)

/-- One step of the traditional-results loop: score `1.0 - index * 0.1`
    (decreasing by rank), tagged `traditional`. -/
def mkTraditionalRow (index : ℕ) (r : SearchRow) : MergedRow :=
  { code := r.code
    title := r.title
    search_type := "traditional"
    combined_score := 1 - (index : ℚ) * 0.1 }

/-- `traditionalResults.forEach((result, index) => combinedResults.set(...))`. -/
def addTraditional (m : List MergedRow) (p : ℕ × SearchRow) : List MergedRow :=
  mapSet m (mkTraditionalRow p.1 p.2)

/-- `vectorResults.forEach(...)`: merge with `Math.max` and tag `hybrid`
    when the code already exists, else insert tagged `vector`. -/
def addVector (m : List MergedRow) (v : VectorRow) : List MergedRow :=
  match mapGet m v.code with
  | some existing =>
      mapSet m { existing with
                 combined_score := max existing.combined_score v.similarity
                 search_type := "hybrid" }
  | none =>
      mapSet m { code := v.code, title := v.title
                 search_type := "vector", combined_score := v.similarity }

/-- The de-duplicating merge of `hybridSearch`: traditional results first
    (with rank-decayed scores), then vector results. -/
def combineResults (trad : List SearchRow) (vec : List VectorRow) : List MergedRow :=
  vec.foldl addVector (trad.enum.foldl addTraditional [])

/-- Descending order on `combined_score`, the comparator
    `(a, b) => b.combined_score - a.combined_score`. -/
def byScoreDesc (a b : MergedRow) : Prop := b.combined_score ≤ a.combined_score

instance : DecidableRel byScoreDesc := fun a b =>
  inferInstanceAs (Decidable (b.combined_score ≤ a.combined_score))

instance : IsTotal MergedRow byScoreDesc :=
  ⟨fun a b => le_total b.combined_score a.combined_score⟩

instance : IsTrans MergedRow byScoreDesc :=
  ⟨fun _ _ _ h1 h2 => le_trans h2 h1⟩

/-- A row as returned by `hybridSearch` to its caller: on the fallback
    path the raw traditional rows come back without `combined_score` or
    `search_type` fields, hence the `Option`s. -/
structure HybridRow where
  code : String
  title : String := ""
  search_type : Option String := none
  combined_score : Option ℚ := none
deriving DecidableEq, Repr

/-- Wrap a merged row for the caller (all fields present). -/
def toHybridRow (m : MergedRow) : HybridRow :=
  { code := m.code, title := m.title
    search_type := some m.search_type, combined_score := some m.combined_score }

/-- Wrap a raw traditional row for the caller (score and type absent). -/
def rawHybridRow (r : SearchRow) : HybridRow :=
  { code := r.code, title := r.title }

/-- A suggestion as returned by `aiPoweredSuggestions` (ICD format):
    `confidence: result.combined_score`, `search_type: result.search_type`. -/
structure Suggestion where
  code : String
  title : String := ""
  confidence : Option ℚ := none
  search_type : Option String := none
deriving DecidableEq, Repr

/-- The storage/provider state visible to the diagnosis-search path:
    `rows` is what the traditional ILIKE query returns for the query and
    limit, `vec` the outcome of `vectorSearch` (`error` models an
    embedding-provider or vector-query failure), `fallbackRows` what the
    weighted-score SQL fallback of `getICDSuggestions` returns. -/
structure SearchDb where
  rows : List SearchRow
  vec : Except Unit (List VectorRow)
  fallbackRows : List Suggestion := []
  storageFailing : Bool := false

/-- `traditionalTextSearch` catches storage errors and returns `[]`. -/
def traditionalTextSearch (db : SearchDb) : List SearchRow :=
  if db.storageFailing then [] else db.rows

/-- `vectorSearch` re-raises both provider and storage errors
    (`throw new Error('Vector search failed')`). -/
def vectorSearch (db : SearchDb) : Except Unit (List VectorRow) :=
  if db.storageFailing then .error () else db.vec

/-- `hybridSearch(query, limit)` of `rag-service.js`: merge, sort by
    combined score descending, truncate; on any vector-search failure the
    catch block falls back to the raw traditional rows. -/
def hybridSearch (db : SearchDb) (limit : ℕ) : List HybridRow :=
  match vectorSearch db with
  | .ok vec =>
      ((List.insertionSort byScoreDesc
          (combineResults (traditionalTextSearch db) vec)).take limit).map toHybridRow
  | .error _ => (traditionalTextSearch db).map rawHybridRow

/-- The per-row formatting of `aiPoweredSuggestions` (ICD format). -/
def toSuggestion (h : HybridRow) : Suggestion :=
  { code := h.code, title := h.title
    confidence := h.combined_score, search_type := h.search_type }

/-- `aiPoweredSuggestions(query, {limit})`: hybrid search plus formatting
    (the early return on an empty result yields the same empty list). -/
def aiPoweredSuggestions (db : SearchDb) (limit : ℕ) : List Suggestion :=
  (hybridSearch db limit).map toSuggestion

/-- JavaScript `String.prototype.trim` (ASCII whitespace). -/
def trimStr (s : String) : String :=
  String.mk (((s.data.dropWhile Char.isWhitespace).reverse.dropWhile Char.isWhitespace).reverse)

/-- `getICDSuggestions(searchQuery, limit)` of `database.js`: AI-powered
    search first, then the weighted-score SQL fallback; the enclosing
    `try/catch` turns any storage failure into an empty success. -/
def getICDSuggestions (db : SearchDb) (searchQuery : String) (limit : ℕ) :
    Except Unit (List Suggestion) :=
  let normalizedQuery := trimStr (lowerStr searchQuery)
  if normalizedQuery == "" then .ok []
  else
    let core : Except Unit (List Suggestion) :=
      let aiResults := aiPoweredSuggestions db limit
      if !aiResults.isEmpty then .ok (aiResults.take limit)
      else if db.storageFailing then .error ()
      else .ok db.fallbackRows
    match core with
    | .ok r => .ok r
    | .error _ => .ok []

/-- Rank of a code in the traditional result list (the `index` of the
    `forEach`), used to state the merge characterization. -/
def tradIndexOf (trad : List SearchRow) (k : String) : Option ℕ :=
  (trad.enum.find? (fun p => p.2.code == k)).map (fun p => p.1)

/-- Vector similarity of a code in the vector result list, used to state
    the merge characterization. -/
def vecSimOf (vec : List VectorRow) (k : String) : Option ℚ :=
  (vec.find? (fun v => v.code == k)).map (fun v => v.similarity)

/-- Codes of the entries of a `combinedResults` map. -/
def mapCodes (m : List MergedRow) : List String := m.map (fun x => x.code)

/-- Example: a stored pre-computed link whose confidence exceeds the 0.95
    ceiling. -/
def linkRowHigh : LinkRow :=
  { icd_code := "I10", cpt_code := "93000"
    relationship_type := "diagnostic", confidence_score := 0.99 }

/-- Example: the active CPT row joined by `linkRowHigh`. -/
def cptRowEkg : CptTableRow :=
  { code := "93000", display := "EKG", short_description := "Electrocardiogram"
    chapter := "Medicine" }

/-- Example storage state holding only `linkRowHigh`. -/
def dbHighLink : LinkageDb :=
  { links := [linkRowHigh], cptCodes := [cptRowEkg], icdCodes := []
    vectorRows := [], keywordRows := [] }

/-- Example: a stored pre-computed link whose confidence is far below the
    0.65 approval threshold. -/
def linkRowLow : LinkRow :=
  { icd_code := "E11.9", cpt_code := "82947"
    relationship_type := "monitoring", confidence_score := 0.2 }

/-- Example: the active CPT row joined by `linkRowLow`. -/
def cptRowGlucose : CptTableRow :=
  { code := "82947", display := "Glucose test"
    short_description := "Assay glucose blood quant"
    chapter := "Pathology and Laboratory" }

/-- Example storage state holding only `linkRowLow`. -/
def dbLowLink : LinkageDb :=
  { links := [linkRowLow], cptCodes := [cptRowGlucose], icdCodes := []
    vectorRows := [], keywordRows := [] }

/-- Example diagnosis: a thyroid disorder (E-code, endocrine chapter). -/
def icdThyroid : IcdInfo :=
  { code := "E03.9", title := "Hypothyroidism, unspecified"
    chapter := "Endocrine, nutritional and metabolic diseases" }

/-- Example procedure: a TSH assay, strongly boosted for `icdThyroid`. -/
def cptTshAssay : CptCandidate :=
  { code := "84443", display := "Assay of thyroid stimulating hormone"
    short_description := "Assay of tsh"
    chapter := "Pathology and Laboratory", similarity := some 0.5 }

/-- Example search state whose storage collaborator is failing. -/
def dbSearchFail : SearchDb :=
  { rows := [{ code := "I10", title := "Essential hypertension" }]
    vec := Except.ok [], storageFailing := true }

/-- Example search state with healthy storage but no matching rows. -/
def dbSearchEmpty : SearchDb := { rows := [], vec := Except.ok [] }

/-- Example linkage state whose storage collaborator is failing. -/
def dbLinkFail : LinkageDb :=
  { links := [], cptCodes := [], icdCodes := [], vectorRows := []
    keywordRows := [], storageFailing := true }

/-- Example search state where the embedding provider fails but one
    lexical match exists. -/
def dbVecFail : SearchDb :=
  { rows := [{ code := "E11.9", title := "Type 2 diabetes mellitus" }]
    vec := Except.error () }

/-- Twelve distinct traditional rows: enough for the rank decay
    `1.0 - index * 0.1` to go negative. -/
def tradRows12 : List SearchRow :=
  [ { code := "R00" }, { code := "R01" }, { code := "R02" }, { code := "R03" },
    { code := "R04" }, { code := "R05" }, { code := "R06" }, { code := "R07" },
    { code := "R08" }, { code := "R09" }, { code := "R10" }, { code := "R11" } ]

/-- Example search state returning twelve traditional rows and no vector
    rows. -/
def dbTwelve : SearchDb := { rows := tradRows12, vec := Except.ok [] }

/-- Example search state exercising all three merge cases: code B occurs
    in both result sets, A only lexically, Z only in the vector set. -/
def dbHybridEx : SearchDb :=
  { rows := [{ code := "A" }, { code := "B" }]
    vec := Except.ok [{ code := "B", similarity := 0.97 },
                      { code := "Z", similarity := 0.6 }] }

/-- Example diagnosis: a sequela-coded femur fracture (tags `{femur}`). -/
def icdFemurSequela : IcdInfo :=
  { code := "S72.001S", title := "Fracture of femur, sequela"
    chapter := "Injury, poisoning and certain other consequences of external causes"
    hasEmbedding := true }

/-- Example procedure: a knee procedure (tags `{knee}`) whose description
    also triggers the sequela follow-up boosts. -/
def cptKneeRehab : CptCandidate :=
  { code := "27650", display := ""
    short_description := "repair knee rehab evaluation"
    chapter := "Surgery", similarity := some 1 }

/-- Example linkage state feeding `cptKneeRehab` to the vector path for
    `icdFemurSequela`. -/
def dbKneeRehab : LinkageDb :=
  { links := [], cptCodes := [], icdCodes := [icdFemurSequela]
    vectorRows := [cptKneeRehab], keywordRows := [] }

/-- Example diagnosis: an initial-encounter femur-shaft fracture
    (tags `{femur}`). -/
def icdFemurShaft : IcdInfo :=
  { code := "S72.001A", title := "Fracture of shaft of femur"
    chapter := "Injury, poisoning and certain other consequences of external causes"
    hasEmbedding := true }

/-- Family of example procedures: a plain surgical knee repair
    (tags `{knee}`) with raw vector similarity `sim`. -/
def cptKneeRepair (sim : ℚ) : CptCandidate :=
  { code := "27650", display := "Repair knee"
    short_description := "Repair of knee"
    chapter := "Surgery", similarity := some sim }

/-- Family of example linkage states feeding `cptKneeRepair sim` to the
    vector path for `icdFemurShaft`. -/
def dbKneeRepair (sim : ℚ) : LinkageDb :=
  { links := [], cptCodes := [], icdCodes := [icdFemurShaft]
    vectorRows := [cptKneeRepair sim], keywordRows := [] }

/-- Non-increasing order on the optional combined scores of two rows
    returned by `hybridSearch` (all scores are present on the merge
    path). -/
def hybridScoreDesc (a b : HybridRow) : Prop :=
  ∀ s t : ℚ, a.combined_score = some s → b.combined_score = some t → t ≤ s

/-- Example search state with a single vector-only result. -/
def dbHybridSingle : SearchDb :=
  { rows := [], vec := Except.ok [{ code := "Z", similarity := 0.6 }] }

/-- Example raw CPT row reaching the validator through the keyword path. -/
def cptRowCulture : CptTableRow :=
  { code := "87070", display := "Culture bacteria"
    short_description := "Culture specimen bacteria"
    chapter := "Pathology and Laboratory" }

/-- Example candidate with no similarity value at all. -/
def cptNoSimilarity : CptCandidate :=
  { code := "99213", display := "Office visit"
    short_description := "Office outpatient visit est"
    chapter := "Evaluation and Management", similarity := none }

/-! ## Theorems -/

/-- Evaluation: the raw validation score of the thyroid/TSH pair is
    0.5 + 0.45 (Rule 5b) + 0.30 (Rule 5c) + 0.10 (Rule 5d) = 1.35. -/
theorem validationScoreRaw_thyroid : validationScoreRaw icdThyroid cptTshAssay = 1.35 := by
  simp +decide only [validationScoreRaw, rule0Delta, rule0bDelta, rule0cDelta, rule0dDelta,
    rule0eDelta, rule0fDelta, fractureAnatomyPenalty, fractureMatchBoost, rule2Delta,
    rule3Delta, rule4Delta, rule5Delta, rule5bDelta, rule5cDelta, rule5dDelta,
    rule6Delta, rule7Delta, rule8Delta, initialScore, icdThyroid, cptTshAssay]
  norm_num

/-- Evaluation: the ceiling clamps the thyroid/TSH pair to 0.95. -/
theorem validationScore_thyroid : validationScore icdThyroid cptTshAssay = 0.95 := by
  rw [validationScore, validationScoreRaw_thyroid]; norm_num

/-- Evaluation: the thyroid/TSH pair is approved. -/
theorem validationStatus_thyroid : validationStatus icdThyroid cptTshAssay = "approved" := by
  rw [validationStatus, validationScore_thyroid]; norm_num

/-- Evaluation: the validator returns the thyroid/TSH candidate. -/
theorem validateMedicalLinking_thyroid :
    validateMedicalLinking icdThyroid [cptTshAssay] = [mkValidated icdThyroid cptTshAssay] := by
  simp [validateMedicalLinking, List.filter, mkValidated, validationStatus_thyroid,
    List.insertionSort, List.orderedInsert]

/-- Evaluation: membership form of `validateMedicalLinking_thyroid`. -/
theorem mem_validateMedicalLinking_thyroid :
    mkValidated icdThyroid cptTshAssay ∈ validateMedicalLinking icdThyroid [cptTshAssay] := by
  rw [validateMedicalLinking_thyroid]; exact List.mem_singleton.mpr rfl

/-- Every row produced by `validateMedicalLinking` arises from one of the
    input candidates, and only approved candidates pass the filter. -/
theorem mem_validateMedicalLinking {icd : IcdInfo} {cpts : List CptCandidate}
    {v : ValidatedLink} (hv : v ∈ validateMedicalLinking icd cpts) :
    ∃ c ∈ cpts, v = mkValidated icd c ∧ validationStatus icd c = "approved" := by
  unfold validateMedicalLinking at hv
  rw [List.mem_insertionSort] at hv
  obtain ⟨hmem, hst⟩ := List.mem_filter.mp hv
  obtain ⟨c, hc, rfl⟩ := List.mem_map.mp hmem
  refine ⟨c, hc, rfl, ?_⟩
  have : (mkValidated icd c).validation_status = some "approved" := beq_iff_eq.mp hst
  simpa [mkValidated] using this

/-- C3: for every diagnosis/candidate pair, the assigned status is
    `approved` iff the final validation score is at least 0.65; the list
    returned by the validator contains only approved candidates (with
    score ≥ 0.65) and is sorted by validation score descending. -/
theorem validateMedicalLinking_approval_and_sorted (icd : IcdInfo) (cpts : List CptCandidate) :
    (∀ v ∈ validateMedicalLinking icd cpts,
        v.validation_status = some "approved" ∧ (0.65 : ℚ) ≤ v.confidence_score) ∧
    List.Sorted byConfidenceDesc (validateMedicalLinking icd cpts) ∧
    (∀ c ∈ cpts, validationStatus icd c = "approved" ↔
        (0.65 : ℚ) ≤ validationScore icd c) := by
  refine ⟨?_, ?_, ?_⟩
  · intro v hv
    obtain ⟨c, _, rfl, happ⟩ := mem_validateMedicalLinking hv
    constructor
    · simp [mkValidated, happ]
    · unfold validationStatus at happ
      by_cases h : (0.65 : ℚ) ≤ validationScore icd c
      · simpa [mkValidated] using h
      · simp [h] at happ
  · exact List.sorted_insertionSort byConfidenceDesc _
  · intro c _
    unfold validationStatus
    by_cases h : (0.65 : ℚ) ≤ validationScore icd c <;> simp [h]

/-- Witness for C3 at a concrete thyroid-disorder/TSH-assay input. -/
theorem validateMedicalLinking_approval_and_sorted_witness :
    ((mkValidated icdThyroid cptTshAssay).validation_status = some "approved" ∧
      (0.65 : ℚ) ≤ (mkValidated icdThyroid cptTshAssay).confidence_score) ∧
    (validationStatus icdThyroid cptTshAssay = "approved" ↔
      (0.65 : ℚ) ≤ validationScore icdThyroid cptTshAssay) :=
  ⟨(validateMedicalLinking_approval_and_sorted icdThyroid [cptTshAssay]).1 _
      mem_validateMedicalLinking_thyroid,
   (validateMedicalLinking_approval_and_sorted icdThyroid [cptTshAssay]).2.2 _
      (List.mem_singleton.mpr rfl)⟩

/-- C1 counterexample: the pre-computed-links path of `getCPTForICD`
    passes a stored confidence of 0.99 through to the caller unmodified
    — above the 0.95 ceiling the claim asserts for every returned
    candidate. -/
theorem precomputedLink_exceeds_ceiling :
    getCPTForICD dbHighLink "I10" 5 =
      Except.ok [{ code := "93000", display := "EKG"
                   short_description := "Electrocardiogram", chapter := "Medicine"
                   relationship_type := "diagnostic", confidence_score := 0.99 }] ∧
    ¬ ((0.99 : ℚ) ≤ 0.95) :=
  ⟨by rfl, by norm_num⟩

/-- C1 amended: every candidate produced by the validator is capped at
    0.95; only the pre-computed-links path (and the validation-error
    fallback) can exceed the ceiling. -/
theorem validateMedicalLinking_confidence_ceiling (icd : IcdInfo) (cpts : List CptCandidate) :
    ∀ v ∈ validateMedicalLinking icd cpts, v.confidence_score ≤ (0.95 : ℚ) := by
  intro v hv
  obtain ⟨c, _, rfl, _⟩ := mem_validateMedicalLinking hv
  show validationScore icd c ≤ (0.95 : ℚ)
  exact min_le_right _ _

/-- Witness for the C1 amended theorem at a concrete input. -/
theorem validateMedicalLinking_confidence_ceiling_witness :
    (mkValidated icdThyroid cptTshAssay).confidence_score ≤ (0.95 : ℚ) :=
  validateMedicalLinking_confidence_ceiling icdThyroid [cptTshAssay] _
    mem_validateMedicalLinking_thyroid

/-- C5 counterexample: when the storage collaborator fails, both
    `getICDSuggestions` and `getCPTForICD` return an empty success, not
    an error, and the result is indistinguishable from a genuinely empty
    search against healthy storage. -/
theorem storage_failure_returns_empty_ok :
    getICDSuggestions dbSearchFail "chest pain" 8 = Except.ok [] ∧
    getICDSuggestions dbSearchFail "chest pain" 8 ≠ Except.error () ∧
    getCPTForICD dbLinkFail "I10" 5 = Except.ok [] ∧
    getICDSuggestions dbSearchEmpty "chest pain" 8 = Except.ok [] := by
  refine ⟨by rfl, ?_, by rfl, by rfl⟩
  intro h
  exact Except.noConfusion
    (show Except.ok ([] : List Suggestion) = (Except.error () : Except Unit (List Suggestion)) from h)

/-- C5 amended: storage errors are caught inside the engine; every
    storage failure surfaces as an empty OK result rather than a
    `StorageUnavailable`-style error, for both the search and the
    linkage entry points. -/
theorem storage_failure_swallowed (db : SearchDb) (db2 : LinkageDb)
    (q : String) (limit : ℕ) (icdCode : String) (limit2 : ℕ)
    (h1 : db.storageFailing = true) (h2 : db2.storageFailing = true) :
    getICDSuggestions db q limit = Except.ok [] ∧
    getCPTForICD db2 icdCode limit2 = Except.ok [] := by
  constructor
  · unfold getICDSuggestions aiPoweredSuggestions hybridSearch vectorSearch traditionalTextSearch
    simp [h1]
  · unfold getCPTForICD
    simp [h2]

/-- Witness for the C5 amended theorem at concrete failing states. -/
theorem storage_failure_swallowed_witness :
    getICDSuggestions dbSearchFail "chest pain" 8 = Except.ok [] ∧
    getCPTForICD dbLinkFail "I10" 5 = Except.ok [] :=
  storage_failure_swallowed dbSearchFail dbLinkFail "chest pain" 8 "I10" 5
    (by rfl) (by rfl)

/-- C9 counterexample: a candidate reaching the validator through the
    traditional keyword path carries `similarity = 0.6` and is therefore
    initialized to 0.6, not to the claimed 0.5 baseline. -/
theorem keyword_candidate_initialized_to_06 :
    (mkKeywordCandidate cptRowCulture).similarity = some 0.6 ∧
    initialScore (mkKeywordCandidate cptRowCulture) = (0.6 : ℚ) ∧
    initialScore (mkKeywordCandidate cptRowCulture) ≠ (0.5 : ℚ) := by
  have heval : initialScore (mkKeywordCandidate cptRowCulture) = (0.6 : ℚ) := by
    have hne : ((0.6 : ℚ) == 0) = false := beq_eq_false_iff_ne.mpr (by norm_num)
    simp [initialScore, mkKeywordCandidate, hne]
  exact ⟨rfl, heval, by rw [heval]; norm_num⟩

/-- C9 amended: only a candidate whose similarity is absent (or zero —
    JavaScript `||` treats 0 as falsy) is initialized to the 0.5
    baseline; keyword-path candidates are initialized to 0.6. -/
theorem initialScore_amended :
    (∀ cpt : CptCandidate, cpt.similarity = none → initialScore cpt = (0.5 : ℚ)) ∧
    (∀ cpt : CptCandidate, cpt.similarity = some 0 → initialScore cpt = (0.5 : ℚ)) ∧
    (∀ c : CptTableRow, initialScore (mkKeywordCandidate c) = (0.6 : ℚ)) := by
  refine ⟨?_, ?_, ?_⟩
  · intro cpt h; simp [initialScore, h]
  · intro cpt h; simp [initialScore, h]
  · intro c
    have hne : ((0.6 : ℚ) == 0) = false := beq_eq_false_iff_ne.mpr (by norm_num)
    simp [initialScore, mkKeywordCandidate, hne]

/-- Witness for the C9 amended theorem at a concrete no-similarity
    candidate. -/
theorem initialScore_amended_witness :
    cptNoSimilarity.similarity = none ∧ initialScore cptNoSimilarity = (0.5 : ℚ) :=
  ⟨rfl, initialScore_amended.1 cptNoSimilarity rfl⟩

/-- C10: whenever the pre-computed-links query returns rows, `getCPTForICD`
    returns exactly those rows — ordered by stored confidence descending,
    each one a pass-through of a stored link row with no validation
    status, no rule application and no 0.65 threshold check. -/
theorem getCPTForICD_precomputed_path (db : LinkageDb) (icdCode : String) (limit : ℕ)
    (hok : db.storageFailing = false)
    (hne : precomputedLinks db icdCode limit ≠ []) :
    getCPTForICD db icdCode limit = Except.ok (precomputedLinks db icdCode limit) ∧
    List.Sorted byConfidenceDesc (precomputedLinks db icdCode limit) ∧
    ∀ r ∈ precomputedLinks db icdCode limit, ∃ l ∈ db.links,
      l.icd_code = icdCode ∧ r.code = l.cpt_code ∧
      r.confidence_score = l.confidence_score ∧
      r.relationship_type = l.relationship_type ∧
      r.validation_status = none := by
  refine ⟨?_, ?_, ?_⟩
  · unfold getCPTForICD
    simp [hok, List.isEmpty_iff, hne]
  · exact List.Pairwise.sublist (List.take_sublist _ _)
      (List.sorted_insertionSort byConfidenceDesc _)
  · intro r hr
    unfold precomputedLinks at hr
    have hr2 : r ∈ List.insertionSort byConfidenceDesc
        (db.links.filterMap (fun l =>
          if l.icd_code == icdCode then
            match db.cptCodes.find? (fun c => c.code == l.cpt_code && c.active) with
            | some c => some
                { code := c.code
                  display := c.display
                  short_description := c.short_description
                  chapter := c.chapter
                  relationship_type := l.relationship_type
                  confidence_score := l.confidence_score }
            | none => none
          else none)) := List.mem_of_mem_take hr
    rw [List.mem_insertionSort] at hr2
    obtain ⟨l, hl, hfl⟩ := List.mem_filterMap.mp hr2
    refine ⟨l, hl, ?_⟩
    by_cases hic : (l.icd_code == icdCode) = true
    · simp only [hic, if_true] at hfl
      rcases hfind : db.cptCodes.find? (fun c => c.code == l.cpt_code && c.active) with _ | c
      · rw [hfind] at hfl; simp at hfl
      · rw [hfind] at hfl
        have hc := List.find?_some hfind
        have hcode : c.code = l.cpt_code := by
          have := (Bool.and_eq_true _ _).mp hc
          exact beq_iff_eq.mp this.1
        obtain rfl := (Option.some_inj.mp hfl).symm
        exact ⟨beq_iff_eq.mp hic, by simpa using hcode, rfl, rfl, rfl⟩
    · simp only [hic] at hfl
      simp at hfl

/-- Witness for C10: a stored link with confidence 0.2 — far below the
    0.65 approval threshold — is still returned, confirming the
    validator is bypassed. -/
theorem getCPTForICD_precomputed_path_witness :
    getCPTForICD dbLowLink "E11.9" 5 = Except.ok (precomputedLinks dbLowLink "E11.9" 5) ∧
    List.Sorted byConfidenceDesc (precomputedLinks dbLowLink "E11.9" 5) ∧
    ∀ r ∈ precomputedLinks dbLowLink "E11.9" 5, ∃ l ∈ dbLowLink.links,
      l.icd_code = "E11.9" ∧ r.code = l.cpt_code ∧
      r.confidence_score = l.confidence_score ∧
      r.relationship_type = l.relationship_type ∧
      r.validation_status = none :=
  getCPTForICD_precomputed_path dbLowLink "E11.9" 5 (by rfl) (by decide)
/-- Characterization of `checkAnatomicalMatch`: true exactly when a side
    is empty, the tag lists overlap, or a curated related pair links
    them. -/
theorem checkAnatomicalMatch_true_iff (I C : List String) :
    checkAnatomicalMatch I C = true ↔
      I = [] ∨ C = [] ∨ (∃ t ∈ I, t ∈ C) ∨
      (∃ t ∈ I, ∃ u ∈ relatedRegions t, u ∈ C) := by
  unfold checkAnatomicalMatch
  split_ifs with h1 h2 h3
  · rw [Bool.or_eq_true, List.isEmpty_iff, List.isEmpty_iff] at h1
    simp only [true_iff]
    exact h1.elim Or.inl (fun h => Or.inr (Or.inl h))
  · simp only [List.any_eq_true] at h2
    obtain ⟨t, ht, htc⟩ := h2
    simp only [true_iff]
    exact Or.inr (Or.inr (Or.inl ⟨t, ht, by simpa using htc⟩))
  · simp only [List.any_eq_true] at h3
    obtain ⟨t, ht, u, hu, huc⟩ := h3
    simp only [true_iff]
    exact Or.inr (Or.inr (Or.inr ⟨t, ht, u, hu, by simpa using huc⟩))
  · rw [Bool.or_eq_true, List.isEmpty_iff, List.isEmpty_iff] at h1
    push_neg at h1
    constructor
    · intro h; cases h
    · rintro (h | h | ⟨t, ht, htc⟩ | ⟨t, ht, u, hu, huc⟩)
      · exact absurd h h1.1
      · exact absurd h h1.2
      · exact absurd (List.any_eq_true.mpr ⟨t, ht, by simpa using htc⟩) h2
      · exact absurd (List.any_eq_true.mpr ⟨t, ht,
          List.any_eq_true.mpr ⟨u, hu, by simpa using huc⟩⟩) h3

/-- C6: for a fracture diagnosis, the anatomical-agreement rule subtracts
    exactly 0.7 when both extracted tag sets are non-empty, disjoint and
    not linked by any curated related pair; when the sets overlap, are
    related, or either side is empty (unknown), no penalty is applied. -/
theorem fracture_anatomical_agreement_rule (icd : IcdInfo) (cpt : CptCandidate)
    (hfr : isFractureDiagnosis icd = true) :
    ((icdSitesOf icd ≠ [] ∧ cptSitesOf cpt ≠ [] ∧
      (∀ t ∈ icdSitesOf icd, t ∉ cptSitesOf cpt) ∧
      (∀ t ∈ icdSitesOf icd, ∀ u ∈ relatedRegions t, u ∉ cptSitesOf cpt)) →
        fractureAnatomyPenalty icd cpt = -0.7) ∧
    (((∃ t ∈ icdSitesOf icd, t ∈ cptSitesOf cpt) ∨
      (∃ t ∈ icdSitesOf icd, ∃ u ∈ relatedRegions t, u ∈ cptSitesOf cpt) ∨
      icdSitesOf icd = [] ∨ cptSitesOf cpt = []) →
        fractureAnatomyPenalty icd cpt = 0) := by
  constructor
  · rintro ⟨hI, hC, hdisj, hrel⟩
    have hmatch : checkAnatomicalMatch (icdSitesOf icd) (cptSitesOf cpt) = false := by
      rw [← Bool.not_eq_true, checkAnatomicalMatch_true_iff]
      rintro (h | h | ⟨t, ht, htc⟩ | ⟨t, ht, u, hu, huc⟩)
      exacts [hI h, hC h, hdisj t ht htc, hrel t ht u hu huc]
    unfold fractureAnatomyPenalty
    rw [if_pos]
    simp [hfr, hmatch, List.isEmpty_iff, hC]
  · intro h
    have hmatch : checkAnatomicalMatch (icdSitesOf icd) (cptSitesOf cpt) = true := by
      rw [checkAnatomicalMatch_true_iff]
      rcases h with h | h | h | h
      exacts [Or.inr (Or.inr (Or.inl h)), Or.inr (Or.inr (Or.inr h)),
        Or.inl h, Or.inr (Or.inl h)]
    unfold fractureAnatomyPenalty
    rw [if_neg]
    simp [hmatch]

/-- Witness for C6: the femur/knee pair has non-empty, disjoint,
    unrelated tag sets and receives the −0.7 penalty. -/
theorem fracture_anatomical_agreement_rule_witness :
    fractureAnatomyPenalty icdFemurShaft (cptKneeRepair 0.9) = -0.7 :=
  (fracture_anatomical_agreement_rule icdFemurShaft (cptKneeRepair 0.9) (by decide)).1
    (by decide)

/-- Evaluation: raw score of the sequela femur-fracture / knee-rehab pair:
    1.0 − 0.7 (anatomy) + 0.25 (injury surgery) + 0.2 + 0.2 (sequela
    boosts) = 0.95. -/
theorem validationScoreRaw_sequela : validationScoreRaw icdFemurSequela cptKneeRehab = 0.95 := by
  simp +decide only [validationScoreRaw, rule0Delta, rule0bDelta, rule0cDelta, rule0dDelta,
    rule0eDelta, rule0fDelta, fractureAnatomyPenalty, fractureMatchBoost, rule2Delta,
    rule3Delta, rule4Delta, rule5Delta, rule5bDelta, rule5cDelta, rule5dDelta,
    rule6Delta, rule7Delta, rule8Delta, initialScore, icdFemurSequela, cptKneeRehab]
  norm_num

/-- Evaluation: clamped score of the sequela pair. -/
theorem validationScore_sequela : validationScore icdFemurSequela cptKneeRehab = 0.95 := by
  rw [validationScore, validationScoreRaw_sequela]; norm_num

/-- Evaluation: the sequela pair is approved despite the −0.7 penalty. -/
theorem validationStatus_sequela : validationStatus icdFemurSequela cptKneeRehab = "approved" := by
  rw [validationStatus, validationScore_sequela]; norm_num

/-- Evaluation: the validator returns the sequela pair's candidate. -/
theorem validateMedicalLinking_sequela :
    validateMedicalLinking icdFemurSequela [cptKneeRehab] =
      [mkValidated icdFemurSequela cptKneeRehab] := by
  simp [validateMedicalLinking, List.filter, mkValidated, validationStatus_sequela,
    List.insertionSort, List.orderedInsert]

/-- C8 counterexample: a fracture diagnosis tagged `{femur}` paired with a
    procedure tagged `{knee}` (no curated related pair) receives the −0.7
    anatomical penalty yet finishes at 0.95, is approved, and appears in
    the `getCPTForICD` output — the sequela follow-up boosts offset the
    penalty. -/
theorem femur_knee_candidate_approved :
    icdSitesOf icdFemurSequela = ["femur"] ∧
    cptSitesOf cptKneeRehab = ["knee"] ∧
    fractureAnatomyPenalty icdFemurSequela cptKneeRehab = -0.7 ∧
    validationScore icdFemurSequela cptKneeRehab = 0.95 ∧
    validationStatus icdFemurSequela cptKneeRehab = "approved" ∧
    getCPTForICD dbKneeRehab "S72.001S" 5 =
      Except.ok [mkValidated icdFemurSequela cptKneeRehab] := by
  refine ⟨by decide, by decide, ?_, validationScore_sequela, validationStatus_sequela, ?_⟩
  · unfold fractureAnatomyPenalty
    rw [if_pos (by decide)]
  · simp +decide [getCPTForICD, dbKneeRehab, precomputedLinks, List.insertionSort,
      validateMedicalLinking_sequela]

/-- C8 amended: for the femur/knee pair the −0.7 penalty always fires;
    the candidate is rejected and absent from the linkage output whenever
    no other boost than the injury-surgery rule applies (here the total
    is `sim − 0.45 < 0.65` for every raw similarity `sim ≤ 1`); a
    sequela-coded diagnosis can still be approved (see the
    counterexample). -/
theorem femur_knee_plain_repair_rejected (sim : ℚ) (h0 : 0 < sim) (h1 : sim ≤ 1) :
    fractureAnatomyPenalty icdFemurShaft (cptKneeRepair sim) = -0.7 ∧
    validationScoreRaw icdFemurShaft (cptKneeRepair sim) = sim - 0.45 ∧
    validationScore icdFemurShaft (cptKneeRepair sim) < 0.65 ∧
    validationStatus icdFemurShaft (cptKneeRepair sim) = "rejected" ∧
    getCPTForICD (dbKneeRepair sim) "S72.001A" 5 = Except.ok [] := by
  have hsim : (sim == 0) = false := beq_eq_false_iff_ne.mpr (ne_of_gt h0)
  have hraw : validationScoreRaw icdFemurShaft (cptKneeRepair sim) = sim - 0.45 := by
    simp +decide only [validationScoreRaw, rule0Delta, rule0bDelta, rule0cDelta, rule0dDelta,
      rule0eDelta, rule0fDelta, fractureAnatomyPenalty, fractureMatchBoost, rule2Delta,
      rule3Delta, rule4Delta, rule5Delta, rule5bDelta, rule5cDelta, rule5dDelta,
      rule6Delta, rule7Delta, rule8Delta, initialScore, icdFemurShaft, cptKneeRepair, hsim,
      icdIsUpperExtremity, icdIsLowerExtremity, cptIsUpperExtremity, cptIsLowerExtremity,
      isFractureDiagnosis, icdSitesOf, cptSitesOf, if_true, if_false]
    linarith
  have hlt : validationScore icdFemurShaft (cptKneeRepair sim) < 0.65 := by
    rw [validationScore, hraw]
    have hm := min_le_left (sim - (0.45 : ℚ)) (0.95 : ℚ)
    have hb : sim - (0.45 : ℚ) ≤ 0.55 := by linarith
    calc min (sim - (0.45 : ℚ)) 0.95 ≤ sim - 0.45 := hm
      _ ≤ 0.55 := hb
      _ < 0.65 := by norm_num
  have hstatus : validationStatus icdFemurShaft (cptKneeRepair sim) = "rejected" := by
    rw [validationStatus, if_neg (not_le.mpr hlt)]
  have hlist : validateMedicalLinking icdFemurShaft [cptKneeRepair sim] = [] := by
    simp +decide [validateMedicalLinking, List.filter, mkValidated, hstatus,
      List.insertionSort]
  have hpen : fractureAnatomyPenalty icdFemurShaft (cptKneeRepair sim) = -0.7 := by
    have hcs : cptSitesOf (cptKneeRepair sim) = ["knee"] := by
      show extractAnatomicalSites ("Repair of knee" ++ " " ++ "Repair knee") "27650" = ["knee"]
      decide
    unfold fractureAnatomyPenalty
    rw [hcs, if_pos (by decide)]
  refine ⟨hpen, hraw, hlt, hstatus, ?_⟩
  simp +decide [getCPTForICD, dbKneeRepair, precomputedLinks, List.insertionSort, hlist]

/-- Witness for the C8 amended theorem at raw similarity 0.9. -/
theorem femur_knee_plain_repair_rejected_witness :
    fractureAnatomyPenalty icdFemurShaft (cptKneeRepair 0.9) = -0.7 ∧
    validationScoreRaw icdFemurShaft (cptKneeRepair 0.9) = 0.9 - 0.45 ∧
    validationScore icdFemurShaft (cptKneeRepair 0.9) < 0.65 ∧
    validationStatus icdFemurShaft (cptKneeRepair 0.9) = "rejected" ∧
    getCPTForICD (dbKneeRepair 0.9) "S72.001A" 5 = Except.ok [] :=
  femur_knee_plain_repair_rejected 0.9 (by norm_num) (by norm_num)

/-- Entries of a `combinedResults` map are keyed by their own code. -/
theorem mapGet_some_code {m : List MergedRow} {k : String} {e : MergedRow}
    (h : mapGet m k = some e) : e.code = k := by
  unfold mapGet at h
  simpa using List.find?_some h

/-- A successful `mapGet` returns a member of the map. -/
theorem mapGet_mem {m : List MergedRow} {k : String} {e : MergedRow}
    (h : mapGet m k = some e) : e ∈ m :=
  List.mem_of_find?_eq_some h

/-- In-place update: looking up the updated key finds the new value. -/
theorem find?_replace_self (m : List MergedRow) (v : MergedRow)
    (h : m.any (fun x => x.code == v.code) = true) :
    (m.map (fun x => if x.code == v.code then v else x)).find?
      (fun x => x.code == v.code) = some v := by
  induction m with
  | nil => simp at h
  | cons x t ih =>
    by_cases hx : (x.code == v.code) = true
    · simp only [List.map_cons, if_pos hx, List.find?, beq_self_eq_true]
    · simp only [List.any_cons, hx, Bool.false_or] at h
      have hx2 : (x.code == v.code) = false := by
        rwa [← Bool.not_eq_true]
      simp only [List.map_cons, if_neg hx]
      simp only [List.find?, hx2]
      exact ih h

/-- Appending a fresh key: looking it up finds the new value. -/
theorem find?_append_self (m : List MergedRow) (v : MergedRow)
    (h : m.any (fun x => x.code == v.code) = false) :
    (m ++ [v]).find? (fun x => x.code == v.code) = some v := by
  induction m with
  | nil => simp [List.find?]
  | cons x t ih =>
    simp only [List.any_cons, Bool.or_eq_false_iff] at h
    simp only [List.cons_append, List.find?, h.1]
    exact ih h.2

/-- `Map.get` after `Map.set` on the same key returns the set value. -/
theorem mapGet_mapSet_self (m : List MergedRow) (v : MergedRow) :
    mapGet (mapSet m v) v.code = some v := by
  unfold mapSet mapGet
  by_cases hany : m.any (fun x => x.code == v.code) = true
  · rw [if_pos hany]; exact find?_replace_self m v hany
  · rw [if_neg hany]
    exact find?_append_self m v (Bool.not_eq_true _ ▸ hany)

/-- In-place update leaves lookups of other keys unchanged. -/
theorem find?_replace_ne (m : List MergedRow) (v : MergedRow) (k : String)
    (h : k ≠ v.code) :
    (m.map (fun x => if x.code == v.code then v else x)).find? (fun x => x.code == k) =
      m.find? (fun x => x.code == k) := by
  have hvk : (v.code == k) = false := by
    rw [beq_eq_false_iff_ne]; exact Ne.symm h
  induction m with
  | nil => simp
  | cons x t ih =>
    by_cases hx : (x.code == v.code) = true
    · have hxk : (x.code == k) = false := by
        rw [beq_iff_eq.mp hx]; exact hvk
      simp only [List.map_cons, if_pos hx, List.find?, hvk, hxk]
      exact ih
    · simp only [List.map_cons, if_neg hx, List.find?]
      by_cases hk : (x.code == k) = true
      · simp only [hk]
      · simp only [hk]
        exact ih

/-- `Map.set` leaves lookups of other keys unchanged. -/
theorem mapGet_mapSet_ne (m : List MergedRow) (v : MergedRow) (k : String)
    (h : k ≠ v.code) : mapGet (mapSet m v) k = mapGet m k := by
  have hvk : (v.code == k) = false := by
    rw [beq_eq_false_iff_ne]; exact Ne.symm h
  unfold mapSet mapGet
  by_cases hany : m.any (fun x => x.code == v.code) = true
  · rw [if_pos hany]; exact find?_replace_ne m v k h
  · rw [if_neg hany, List.find?_append]
    have hnil : ([v].find? (fun x => x.code == k)) = none := by
      simp only [List.find?, hvk]
    rw [hnil]
    cases m.find? (fun x => x.code == k) <;> simp
/-- Members of a map after `Map.set` are old members or the new value. -/
theorem mem_mapSet {x : MergedRow} {m : List MergedRow} {v : MergedRow}
    (h : x ∈ mapSet m v) : x ∈ m ∨ x = v := by
  unfold mapSet at h
  by_cases hany : m.any (fun y => y.code == v.code) = true
  · rw [if_pos hany] at h
    obtain ⟨y, hy, hxy⟩ := List.mem_map.mp h
    by_cases hyc : (y.code == v.code) = true
    · right; rw [← hxy, if_pos hyc]
    · left; rw [← hxy, if_neg hyc]; exact hy
  · rw [if_neg hany] at h
    rcases List.mem_append.mp h with h | h
    · exact Or.inl h
    · exact Or.inr (List.mem_singleton.mp h)

/-- `Map.set` either preserves the key list or appends the new key. -/
theorem mapCodes_mapSet (m : List MergedRow) (v : MergedRow) :
    mapCodes (mapSet m v) =
      if m.any (fun x => x.code == v.code) = true then mapCodes m
      else mapCodes m ++ [v.code] := by
  unfold mapSet mapCodes
  by_cases hany : m.any (fun x => x.code == v.code) = true
  · rw [if_pos hany, if_pos hany, List.map_map]
    apply List.map_congr_left
    intro x _
    by_cases hx : (x.code == v.code) = true
    · simp [hx, beq_iff_eq.mp hx]
    · have hx2 : ¬ x.code = v.code := by simpa using hx
      simp [hx, hx2]
  · rw [if_neg hany, if_neg hany, List.map_append]
    rfl

/-- `Map.set` preserves distinctness of the keys. -/
theorem nodup_mapCodes_mapSet {m : List MergedRow} (v : MergedRow)
    (h : (mapCodes m).Nodup) : (mapCodes (mapSet m v)).Nodup := by
  rw [mapCodes_mapSet]
  by_cases hany : m.any (fun x => x.code == v.code) = true
  · rw [if_pos hany]; exact h
  · rw [if_neg hany]
    have hnot : v.code ∉ mapCodes m := by
      intro hmem
      obtain ⟨x, hx, hxc⟩ := List.mem_map.mp hmem
      exact absurd (List.any_eq_true.mpr ⟨x, hx, by simp [hxc]⟩) hany
    simpa [List.nodup_append] using ⟨h, hnot⟩

/-- In a map with distinct keys, every member is found under its code. -/
theorem mapGet_of_mem {m : List MergedRow} {x : MergedRow}
    (hnd : (mapCodes m).Nodup) (hx : x ∈ m) : mapGet m x.code = some x := by
  induction m with
  | nil => cases hx
  | cons e t ih =>
    unfold mapCodes at hnd
    rw [List.map_cons, List.nodup_cons] at hnd
    rcases List.mem_cons.mp hx with rfl | hxt
    · unfold mapGet
      simp only [List.find?, beq_self_eq_true]
    · have hne : (e.code == x.code) = false := by
        rw [beq_eq_false_iff_ne]
        intro hh
        exact hnd.1 (hh ▸ List.mem_map.mpr ⟨x, hxt, rfl⟩)
      unfold mapGet
      simp only [List.find?, hne]
      exact ih hnd.2 hxt
/-- Variant of `mapGet_mapSet_self` with the key given by an equation. -/
theorem mapGet_mapSet_eq (m : List MergedRow) (v : MergedRow) (k : String)
    (h : k = v.code) : mapGet (mapSet m v) k = some v := by
  rw [h]; exact mapGet_mapSet_self m v

/-- The payload of an enumerated entry belongs to the original list. -/
theorem snd_mem_of_mem_enumFrom {p : ℕ × SearchRow} {n : ℕ} {l : List SearchRow}
    (hp : p ∈ List.enumFrom n l) : p.2 ∈ l := by
  have h1 : p.2 ∈ (List.enumFrom n l).map Prod.snd := List.mem_map_of_mem Prod.snd hp
  rwa [List.enumFrom_map_snd] at h1

/-- Characterization of the traditional-results loop of `hybridSearch`:
    a code present in the (duplicate-free) traditional rows maps to the
    rank-decayed `traditional` entry of its first occurrence; other keys
    are untouched. -/
theorem foldl_addTraditional_get (l : List SearchRow) :
    ∀ (n : ℕ) (m0 : List MergedRow) (k : String),
    (l.map SearchRow.code).Nodup →
    mapGet ((List.enumFrom n l).foldl addTraditional m0) k =
      match (List.enumFrom n l).find? (fun p => p.2.code == k) with
      | some p => some (mkTraditionalRow p.1 p.2)
      | none => mapGet m0 k := by
  induction l with
  | nil =>
    intro n m0 k _
    simp [List.enumFrom, List.find?]
  | cons r t ih =>
    intro n m0 k hnd
    rw [List.map_cons, List.nodup_cons] at hnd
    show mapGet ((List.enumFrom (n+1) t).foldl addTraditional (addTraditional m0 (n, r))) k = _
    rw [ih (n+1) (addTraditional m0 (n, r)) k hnd.2]
    by_cases hk : (r.code == k) = true
    · have hkr : k = r.code := (beq_iff_eq.mp hk).symm
      have hfind : (List.enumFrom (n+1) t).find? (fun p => p.2.code == k) = none := by
        rw [List.find?_eq_none]
        intro p hp hpk
        have hp2 : p.2.code ∈ t.map SearchRow.code :=
          List.mem_map.mpr ⟨p.2, snd_mem_of_mem_enumFrom hp, rfl⟩
        have heq : p.2.code = r.code := (show p.2.code = k by simpa using hpk).trans hkr
        exact hnd.1 (by rwa [heq] at hp2)
      have hrhs : (List.enumFrom n (r :: t)).find? (fun p => p.2.code == k) = some (n, r) := by
        show ((n, r) :: List.enumFrom (n+1) t).find? (fun p => p.2.code == k) = some (n, r)
        simp [List.find?, hk]
      rw [hfind, hrhs]
      exact mapGet_mapSet_eq m0 _ k hkr
    · have hk2 : (r.code == k) = false := by rwa [← Bool.not_eq_true]
      have hrhs : (List.enumFrom n (r :: t)).find? (fun p => p.2.code == k) =
          (List.enumFrom (n+1) t).find? (fun p => p.2.code == k) := by
        show ((n, r) :: List.enumFrom (n+1) t).find? (fun p => p.2.code == k) = _
        simp [List.find?, hk2]
      rw [hrhs]
      have hmg : mapGet (addTraditional m0 (n, r)) k = mapGet m0 k := by
        refine mapGet_mapSet_ne m0 _ k ?_
        intro hh
        rw [hh] at hk2
        simp [mkTraditionalRow] at hk2
      cases hfind : (List.enumFrom (n+1) t).find? (fun p => p.2.code == k) with
      | none => simp [hmg]
      | some p => simp
/-- Characterization of the vector-results loop of `hybridSearch`: a code
    present in the (duplicate-free) vector rows either max-merges into the
    existing entry (tagged `hybrid`) or is inserted as a `vector` entry;
    other keys are untouched. -/
theorem foldl_addVector_get (vec : List VectorRow) :
    ∀ (m0 : List MergedRow) (k : String),
    (vec.map VectorRow.code).Nodup →
    mapGet (vec.foldl addVector m0) k =
      match vec.find? (fun v => v.code == k) with
      | some v =>
        match mapGet m0 k with
        | some e =>
          some { e with
                 combined_score := max e.combined_score v.similarity
                 search_type := "hybrid" }
        | none =>
          some { code := v.code
                 title := v.title
                 search_type := "vector"
                 combined_score := v.similarity }
      | none => mapGet m0 k := by
  induction vec with
  | nil =>
    intro m0 k _
    simp [List.find?]
  | cons v t ih =>
    intro m0 k hnd
    rw [List.map_cons, List.nodup_cons] at hnd
    rw [List.foldl_cons, ih (addVector m0 v) k hnd.2]
    by_cases hk : (v.code == k) = true
    · have hkv : k = v.code := (beq_iff_eq.mp hk).symm
      have hfind : t.find? (fun w => w.code == k) = none := by
        rw [List.find?_eq_none]
        intro w hw hwk
        have hw2 : w.code ∈ t.map VectorRow.code := List.mem_map.mpr ⟨w, hw, rfl⟩
        have heq : w.code = v.code := (show w.code = k by simpa using hwk).trans hkv
        exact hnd.1 (by rwa [heq] at hw2)
      have hrhs : ((v :: t).find? (fun w => w.code == k)) = some v := by
        simp [List.find?, hk]
      rw [hfind, hrhs]
      unfold addVector
      cases hget : mapGet m0 v.code with
      | some e =>
        have hec : e.code = v.code := mapGet_some_code hget
        rw [hkv, hget]
        exact mapGet_mapSet_eq m0 _ v.code (by simp [hec])
      | none =>
        rw [hkv, hget]
        exact mapGet_mapSet_eq m0 _ v.code (by simp)
    · have hk2 : (v.code == k) = false := by rwa [← Bool.not_eq_true]
      have hkne : k ≠ v.code := fun hh => by
        rw [hh] at hk2; simp at hk2
      have hrhs : ((v :: t).find? (fun w => w.code == k)) = t.find? (fun w => w.code == k) := by
        simp [List.find?, hk2]
      rw [hrhs]
      have hmg : mapGet (addVector m0 v) k = mapGet m0 k := by
        unfold addVector
        cases hget : mapGet m0 v.code with
        | some e =>
          have hec : e.code = v.code := mapGet_some_code hget
          exact mapGet_mapSet_ne m0 _ k (by simp [hec, hkne])
        | none =>
          exact mapGet_mapSet_ne m0 _ k (by simp [hkne])
      cases hfind : t.find? (fun w => w.code == k) with
      | none => simp [hmg]
      | some w => simp [hmg]
/-- `addVector` preserves distinctness of the keys. -/
theorem nodup_mapCodes_addVector {m : List MergedRow} (v : VectorRow)
    (h : (mapCodes m).Nodup) : (mapCodes (addVector m v)).Nodup := by
  unfold addVector
  cases mapGet m v.code with
  | some e => exact nodup_mapCodes_mapSet _ h
  | none => exact nodup_mapCodes_mapSet _ h

/-- The traditional loop preserves distinctness of the keys. -/
theorem nodup_mapCodes_foldl_addTraditional (ps : List (ℕ × SearchRow)) :
    ∀ m0 : List MergedRow, (mapCodes m0).Nodup →
      (mapCodes (ps.foldl addTraditional m0)).Nodup := by
  induction ps with
  | nil => intro m0 h; exact h
  | cons p t ih => intro m0 h; exact ih _ (nodup_mapCodes_mapSet _ h)

/-- The vector loop preserves distinctness of the keys. -/
theorem nodup_mapCodes_foldl_addVector (vs : List VectorRow) :
    ∀ m0 : List MergedRow, (mapCodes m0).Nodup →
      (mapCodes (vs.foldl addVector m0)).Nodup := by
  induction vs with
  | nil => intro m0 h; exact h
  | cons v t ih => intro m0 h; exact ih _ (nodup_mapCodes_addVector v h)

/-- The merged map of `hybridSearch` has distinct keys. -/
theorem nodup_mapCodes_combineResults (trad : List SearchRow) (vec : List VectorRow) :
    (mapCodes (combineResults trad vec)).Nodup := by
  unfold combineResults
  exact nodup_mapCodes_foldl_addVector vec _
    (nodup_mapCodes_foldl_addTraditional trad.enum [] (by simp [mapCodes]))

/-- Full characterization of one key of the merged map of `hybridSearch`. -/
theorem combineResults_get (trad : List SearchRow) (vec : List VectorRow) (k : String)
    (h1 : (trad.map SearchRow.code).Nodup) (h2 : (vec.map VectorRow.code).Nodup) :
    mapGet (combineResults trad vec) k =
      match vec.find? (fun v => v.code == k) with
      | some v =>
        match (List.enumFrom 0 trad).find? (fun p => p.2.code == k) with
        | some p =>
          some { mkTraditionalRow p.1 p.2 with
                 combined_score := max (mkTraditionalRow p.1 p.2).combined_score v.similarity
                 search_type := "hybrid" }
        | none =>
          some { code := v.code
                 title := v.title
                 search_type := "vector"
                 combined_score := v.similarity }
      | none =>
        match (List.enumFrom 0 trad).find? (fun p => p.2.code == k) with
        | some p => some (mkTraditionalRow p.1 p.2)
        | none => none := by
  unfold combineResults
  rw [foldl_addVector_get vec _ k h2]
  have htrad : mapGet (trad.enum.foldl addTraditional []) k =
      match (List.enumFrom 0 trad).find? (fun p => p.2.code == k) with
      | some p => some (mkTraditionalRow p.1 p.2)
      | none => mapGet ([] : List MergedRow) k :=
    foldl_addTraditional_get trad 0 [] k h1
  rw [htrad]
  cases (vec.find? (fun v => v.code == k)) with
  | none => rfl
  | some v =>
    cases ((List.enumFrom 0 trad).find? (fun p => p.2.code == k)) with
    | none => rfl
    | some p => rfl
/-- C7: every candidate returned by `hybridSearch` obeys the merge rule:
    present in both result sets — combined score is the maximum of the
    rank-decayed lexical score and the vector similarity, tagged `hybrid`;
    lexical-only — the rank-decayed lexical score, tagged `traditional`;
    vector-only — the vector similarity, tagged `vector`. -/
theorem hybridSearch_merge_characterization (db : SearchDb) (limit : ℕ)
    (vec : List VectorRow)
    (hok : db.storageFailing = false) (hvec : db.vec = Except.ok vec)
    (h1 : (db.rows.map SearchRow.code).Nodup)
    (h2 : (vec.map VectorRow.code).Nodup) :
    ∀ h ∈ hybridSearch db limit,
      (∀ i, tradIndexOf db.rows h.code = some i →
        (∀ s, vecSimOf vec h.code = some s →
          h.combined_score = some (max (1 - (i : ℚ) * 0.1) s) ∧
          h.search_type = some "hybrid") ∧
        (vecSimOf vec h.code = none →
          h.combined_score = some (1 - (i : ℚ) * 0.1) ∧
          h.search_type = some "traditional")) ∧
      (tradIndexOf db.rows h.code = none →
        (∀ s, vecSimOf vec h.code = some s →
          h.combined_score = some s ∧ h.search_type = some "vector") ∧
        vecSimOf vec h.code ≠ none) := by
  intro h hmem
  have hvs : vectorSearch db = Except.ok vec := by
    unfold vectorSearch; rw [hok, hvec]; rfl
  have hts : traditionalTextSearch db = db.rows := by
    unfold traditionalTextSearch; rw [hok]; rfl
  unfold hybridSearch at hmem
  rw [hvs, hts] at hmem
  obtain ⟨g, hg, rfl⟩ := List.mem_map.mp hmem
  have hg2 : g ∈ combineResults db.rows vec :=
    (List.mem_insertionSort byScoreDesc).mp (List.mem_of_mem_take hg)
  have hget : mapGet (combineResults db.rows vec) g.code = some g :=
    mapGet_of_mem (nodup_mapCodes_combineResults db.rows vec) hg2
  rw [combineResults_get db.rows vec g.code h1 h2] at hget
  have hcode : (toHybridRow g).code = g.code := rfl
  have hscore : (toHybridRow g).combined_score = some g.combined_score := rfl
  have htype : (toHybridRow g).search_type = some g.search_type := rfl
  rw [hcode]
  constructor
  · intro i hi
    unfold tradIndexOf at hi
    cases hfe : (db.rows.enum.find? (fun p => p.2.code == g.code)) with
    | none => rw [hfe] at hi; cases hi
    | some p =>
      rw [hfe] at hi
      have hip : i = p.1 := (Option.some_inj.mp hi).symm
      have hfe0 : (List.enumFrom 0 db.rows).find? (fun p => p.2.code == g.code) = some p := hfe
      constructor
      · intro s hs
        unfold vecSimOf at hs
        cases hfv : (vec.find? (fun v => v.code == g.code)) with
        | none => rw [hfv] at hs; cases hs
        | some v =>
          rw [hfv] at hs
          have hsv : s = v.similarity := (Option.some_inj.mp hs).symm
          rw [hfv, hfe0] at hget
          have hgv := Option.some_inj.mp hget.symm
          rw [hscore, htype, hgv, hip, hsv]
          exact ⟨rfl, rfl⟩
      · intro hs
        unfold vecSimOf at hs
        cases hfv : (vec.find? (fun v => v.code == g.code)) with
        | some v => rw [hfv] at hs; cases hs
        | none =>
          rw [hfv, hfe0] at hget
          have hgv := Option.some_inj.mp hget.symm
          rw [hscore, htype, hgv, hip]
          exact ⟨rfl, rfl⟩
  · intro hi
    unfold tradIndexOf at hi
    cases hfe : (db.rows.enum.find? (fun p => p.2.code == g.code)) with
    | some p => rw [hfe] at hi; cases hi
    | none =>
      have hfe0 : (List.enumFrom 0 db.rows).find? (fun p => p.2.code == g.code) = none := hfe
      constructor
      · intro s hs
        unfold vecSimOf at hs
        cases hfv : (vec.find? (fun v => v.code == g.code)) with
        | none => rw [hfv] at hs; cases hs
        | some v =>
          rw [hfv] at hs
          have hsv : s = v.similarity := (Option.some_inj.mp hs).symm
          rw [hfv, hfe0] at hget
          have hgv := Option.some_inj.mp hget.symm
          rw [hscore, htype, hgv, hsv]
          exact ⟨rfl, rfl⟩
      · intro hs
        unfold vecSimOf at hs
        cases hfv : (vec.find? (fun v => v.code == g.code)) with
        | some v => rw [hfv] at hs; cases hs
        | none =>
          rw [hfv, hfe0] at hget
          cases hget
/-- All scores produced by the traditional loop are at most 1. -/
theorem score_le_one_foldl_addTraditional (ps : List (ℕ × SearchRow)) :
    ∀ m0 : List MergedRow, (∀ x ∈ m0, x.combined_score ≤ 1) →
      ∀ x ∈ ps.foldl addTraditional m0, x.combined_score ≤ 1 := by
  induction ps with
  | nil => intro m0 h; exact h
  | cons p t ih =>
    intro m0 h
    refine ih _ ?_
    intro x hx
    rcases mem_mapSet hx with hx | rfl
    · exact h x hx
    · show (1 : ℚ) - (p.1 : ℚ) * 0.1 ≤ 1
      have : (0 : ℚ) ≤ (p.1 : ℚ) * 0.1 := by positivity
      linarith

/-- The vector loop preserves the upper bound 1 on scores when all
    similarities are at most 1. -/
theorem score_le_one_foldl_addVector (vs : List VectorRow) :
    ∀ m0 : List MergedRow, (∀ v ∈ vs, v.similarity ≤ 1) →
      (∀ x ∈ m0, x.combined_score ≤ 1) →
      ∀ x ∈ vs.foldl addVector m0, x.combined_score ≤ 1 := by
  induction vs with
  | nil => intro m0 _ h; exact h
  | cons v t ih =>
    intro m0 hv h
    refine ih _ (fun w hw => hv w (List.mem_cons_of_mem _ hw)) ?_
    intro x hx
    have hv1 : v.similarity ≤ 1 := hv v (List.mem_cons_self _ _)
    unfold addVector at hx
    cases hget : mapGet m0 v.code with
    | some e =>
      rw [hget] at hx
      rcases mem_mapSet hx with hx | rfl
      · exact h x hx
      · show max e.combined_score v.similarity ≤ 1
        exact max_le (h e (mapGet_mem hget)) hv1
    | none =>
      rw [hget] at hx
      rcases mem_mapSet hx with hx | rfl
      · exact h x hx
      · exact hv1

/-- C2 amended: on the merge path every returned combined score is at
    most 1 (given vector similarities at most 1) and the returned list is
    sorted non-increasing by combined score; the claimed lower bound 0
    fails (see the counterexample): lexical rank decay `1 − 0.1·index`
    goes negative from the twelfth lexical row on. -/
theorem hybridSearch_le_one_and_sorted (db : SearchDb) (limit : ℕ)
    (vec : List VectorRow)
    (hok : db.storageFailing = false) (hvec : db.vec = Except.ok vec)
    (hsim : ∀ v ∈ vec, v.similarity ≤ 1) :
    (∀ h ∈ hybridSearch db limit, ∀ s, h.combined_score = some s → s ≤ 1) ∧
    List.Pairwise hybridScoreDesc (hybridSearch db limit) := by
  have hvs : vectorSearch db = Except.ok vec := by
    unfold vectorSearch; rw [hok, hvec]; rfl
  have hts : traditionalTextSearch db = db.rows := by
    unfold traditionalTextSearch; rw [hok]; rfl
  constructor
  · intro h hmem s hs
    unfold hybridSearch at hmem
    rw [hvs, hts] at hmem
    obtain ⟨g, hg, rfl⟩ := List.mem_map.mp hmem
    have hg2 : g ∈ combineResults db.rows vec :=
      (List.mem_insertionSort byScoreDesc).mp (List.mem_of_mem_take hg)
    have hgle : g.combined_score ≤ 1 := by
      unfold combineResults at hg2
      exact score_le_one_foldl_addVector vec _ hsim
        (score_le_one_foldl_addTraditional db.rows.enum [] (by simp)) g hg2
    have : s = g.combined_score := by
      have := hs
      rw [show (toHybridRow g).combined_score = some g.combined_score from rfl] at this
      exact (Option.some_inj.mp this).symm
    rw [this]; exact hgle
  · unfold hybridSearch
    rw [hvs, hts]
    rw [List.pairwise_map]
    have hsorted : List.Pairwise byScoreDesc
        (List.take limit (List.insertionSort byScoreDesc (combineResults db.rows vec))) :=
      List.Pairwise.sublist (List.take_sublist _ _)
        (List.sorted_insertionSort byScoreDesc _)
    refine hsorted.imp ?_
    intro a b hab s t hs ht
    rw [show (toHybridRow a).combined_score = some a.combined_score from rfl] at hs
    rw [show (toHybridRow b).combined_score = some b.combined_score from rfl] at ht
    rw [← Option.some_inj.mp hs, ← Option.some_inj.mp ht]
    exact hab
/-- C2 counterexample: with twelve lexical rows and limit 12 the hybrid
    search returns a candidate whose combined score is 1 − 1.1 < 0 —
    outside the claimed interval [0, 1]. -/
theorem hybridSearch_score_below_zero :
    ∃ h ∈ hybridSearch dbTwelve 12, ∃ s : ℚ,
      h.combined_score = some s ∧ s < 0 := by
  have hg : mapGet (combineResults tradRows12 []) "R11" =
      some (mkTraditionalRow 11 { code := "R11" }) := by
    show mapGet ((List.enumFrom 0 tradRows12).foldl addTraditional []) "R11" = _
    rw [foldl_addTraditional_get tradRows12 0 [] "R11" (by decide)]
    rw [show (List.enumFrom 0 tradRows12).find? (fun p => p.2.code == "R11") =
        some (11, ({ code := "R11" } : SearchRow)) from by decide]
  have hmem : mkTraditionalRow 11 { code := "R11" } ∈ combineResults tradRows12 [] :=
    mapGet_mem hg
  have hmem2 : mkTraditionalRow 11 { code := "R11" } ∈
      List.insertionSort byScoreDesc (combineResults tradRows12 []) :=
    (List.mem_insertionSort byScoreDesc).mpr hmem
  have hlen : (List.insertionSort byScoreDesc (combineResults tradRows12 [])).length = 12 := by
    rw [(List.perm_insertionSort byScoreDesc _).length_eq]
    decide
  have htake : (List.insertionSort byScoreDesc (combineResults tradRows12 [])).take 12 =
      List.insertionSort byScoreDesc (combineResults tradRows12 []) :=
    List.take_of_length_le (by rw [hlen])
  refine ⟨toHybridRow (mkTraditionalRow 11 { code := "R11" }), ?_,
    1 - (11 : ℚ) * 0.1, ?_, by norm_num⟩
  · show toHybridRow (mkTraditionalRow 11 { code := "R11" }) ∈
      ((List.insertionSort byScoreDesc (combineResults tradRows12 [])).take 12).map toHybridRow
    rw [htake]
    exact List.mem_map_of_mem toHybridRow hmem2
  · show some (1 - ((11 : ℕ) : ℚ) * 0.1) = some (1 - (11 : ℚ) * 0.1)
    norm_num
/-- C4 counterexample: on embedding-provider failure the fallback path
    returns the lexical row, but without any `search_type` field — the
    returned candidate is not tagged `traditional`/`lexical`, so degraded
    mode is not detectable as claimed. -/
theorem degraded_path_unlabelled :
    getICDSuggestions dbVecFail "diab" 8 =
      Except.ok [{ code := "E11.9", title := "Type 2 diabetes mellitus" }] ∧
    ({ code := "E11.9", title := "Type 2 diabetes mellitus" } : Suggestion).search_type = none ∧
    ({ code := "E11.9", title := "Type 2 diabetes mellitus" } : Suggestion).search_type ≠
      some "traditional" := by
  refine ⟨by rfl, rfl, by simp⟩

/-- C4 amended: on embedding-provider failure (healthy storage, non-empty
    normalized query, nonzero limit), `getICDSuggestions` does not raise
    and returns exactly the raw lexical rows (non-empty when lexical
    matches exist), but every returned candidate carries no `search_type`
    field at all. -/
theorem degraded_search_returns_lexical (db : SearchDb) (q : String) (limit : ℕ)
    (hok : db.storageFailing = false) (hvec : db.vec = Except.error ())
    (hq : (trimStr (lowerStr q) == "") = false) (hr : db.rows ≠ []) (hl : limit ≠ 0) :
    getICDSuggestions db q limit =
      Except.ok (((db.rows.map rawHybridRow).map toSuggestion).take limit) ∧
    getICDSuggestions db q limit ≠ Except.ok [] ∧
    (∀ s ∈ ((db.rows.map rawHybridRow).map toSuggestion).take limit,
      s.search_type = none) := by
  have hhs : hybridSearch db limit = db.rows.map rawHybridRow := by
    unfold hybridSearch vectorSearch traditionalTextSearch
    rw [hok, hvec]
    rfl
  have hai : aiPoweredSuggestions db limit = (db.rows.map rawHybridRow).map toSuggestion := by
    unfold aiPoweredSuggestions; rw [hhs]
  have hne : ((db.rows.map rawHybridRow).map toSuggestion).isEmpty = false := by
    rw [List.isEmpty_eq_false_iff_exists_mem]
    obtain ⟨r, hr2⟩ := List.exists_mem_of_ne_nil db.rows hr
    exact ⟨toSuggestion (rawHybridRow r), by
      exact List.mem_map_of_mem _ (List.mem_map_of_mem _ hr2)⟩
  have hmain : getICDSuggestions db q limit =
      Except.ok (((db.rows.map rawHybridRow).map toSuggestion).take limit) := by
    unfold getICDSuggestions
    rw [if_neg (by simp [hq])]
    simp only [hai, hne, Bool.not_false, if_true]
  refine ⟨hmain, ?_, ?_⟩
  · rw [hmain]
    intro hcontra
    have h2 : (((db.rows.map rawHybridRow).map toSuggestion).take limit) = [] :=
      Option.some_inj.mp (by exact congrArg (fun x => match x with
        | Except.ok r => some r
        | Except.error _ => none) hcontra)
    rcases List.take_eq_nil_iff.mp h2 with h3 | h3
    · exact hl h3
    · rw [List.map_eq_nil_iff, List.map_eq_nil_iff] at h3
      exact hr h3
  · intro s hs
    obtain ⟨x, hx, rfl⟩ := List.mem_map.mp (List.mem_of_mem_take hs)
    obtain ⟨r, _, rfl⟩ := List.mem_map.mp hx
    rfl
/-- Witness for the C4 amended theorem at a concrete failing provider. -/
theorem degraded_search_returns_lexical_witness :
    getICDSuggestions dbVecFail "diab" 8 =
      Except.ok (((dbVecFail.rows.map rawHybridRow).map toSuggestion).take 8) ∧
    getICDSuggestions dbVecFail "diab" 8 ≠ Except.ok [] ∧
    (∀ s ∈ ((dbVecFail.rows.map rawHybridRow).map toSuggestion).take 8,
      s.search_type = none) :=
  degraded_search_returns_lexical dbVecFail "diab" 8 rfl rfl (by decide)
    (by decide) (by decide)

/-- Witness for C7 on a concrete vector-only result. -/
theorem hybridSearch_merge_characterization_witness :
    ({ code := "Z", search_type := some "vector",
       combined_score := some (0.6 : ℚ) } : HybridRow).combined_score = some 0.6 ∧
    ({ code := "Z", search_type := some "vector",
       combined_score := some (0.6 : ℚ) } : HybridRow).search_type = some "vector" := by
  have hlist : hybridSearch dbHybridSingle 10 =
      [{ code := "Z", search_type := some "vector", combined_score := some 0.6 }] := rfl
  have h := hybridSearch_merge_characterization dbHybridSingle 10
    [{ code := "Z", similarity := 0.6 }] rfl rfl (by decide) (by decide)
    { code := "Z", search_type := some "vector", combined_score := some 0.6 }
    (by rw [hlist]; exact List.mem_singleton.mpr rfl)
  exact (h.2 (by rfl)).1 0.6 (by rfl)

/-- Witness for the C2 amended theorem on a concrete result. -/
theorem hybridSearch_le_one_and_sorted_witness :
    ((0.6 : ℚ) ≤ 1) ∧
    List.Pairwise hybridScoreDesc (hybridSearch dbHybridSingle 10) := by
  have h := hybridSearch_le_one_and_sorted dbHybridSingle 10
    [{ code := "Z", similarity := 0.6 }] rfl rfl
    (by intro v hv; rw [List.mem_singleton.mp hv]; norm_num)
  refine ⟨?_, h.2⟩
  exact h.1 { code := "Z", search_type := some "vector", combined_score := some 0.6 }
    (by exact List.mem_singleton.mpr rfl) 0.6 rfl
end AutoIcd
